import Mathlib

/-!
Verification of the trip-planning route/itinerary core.

Shallow embedding of the itinerary regeneration and route-enrichment
pipeline: `agents/RouteAgent.py` (route resolution with process-lifetime
cache, deterministic mock fallback, mode recommendation, per-day
enrichment) and `agents/planning_agent.py` (per-city day allocation,
fallback itinerary builder, item normalization, crew-result parsing).

Machine integers are modelled as `Nat`/`Int`; Python floats that feed the
mock estimator are modelled as `ℚ`.  Python dicts with optional keys are
modelled as structures with `Option` fields.  Fallible operations return
`Option`.
-/

/-! ### Day allocation (`_build_fallback_itinerary`, planning_agent.py)

Python:
  n = len(cities)
  base = duration // max(n, 1)
  extra = duration % max(n, 1)
  days_per_city = [base + (1 if i < extra else 0) for i in range(n)]
-/

def days_per_city (cities : List String) (duration : Nat) : List Nat :=
  let n := cities.length
  let base := duration / max n 1
  let extra := duration % max n 1
  (List.range n).map (fun i => base + if i < extra then 1 else 0)

/-! ### Itinerary items and the per-item normalization loop
(`_parse_crew_result` / `TripPlanner.modify_itinerary_chat`,
planning_agent.py)

Python dicts are modelled as structures whose `Option` fields record key
presence.  Cost values may be numeric or not (`isinstance(raw_cost,
(int, float))`); `JVal` models that distinction. -/

/-- A JSON-ish scalar stored in the `cost` / `cost_usd` keys. -/
inductive JVal where
  | num (n : Int)
  | str (s : String)
deriving DecidableEq, Repr

/-- Python `str(v)` rendering used by `f"${item['cost_usd']}"`. -/
def JVal.render : JVal → String
  | .num n => toString n
  | .str s => s

/-- One itinerary activity item (a Python dict; `none` = key absent). -/
structure Item where
  id : Option String := none
  status : Option String := none
  delayed_to_day : Option (Option Nat) := none
  is_ai_suggested : Option Int := none
  cost_usd : Option JVal := none
  cost : Option JVal := none
  cost_local : Option String := none
  currency : Option String := none
  google_maps_url : Option String := none
  location : Option String := none
  title : Option String := none
  start_time : Option String := none
  duration_minutes : Option Nat := none
  description : Option String := none
  item_type : Option String := none
  notes : Option String := none
deriving DecidableEq, Repr

/-- `_gmaps_url(place, city)`:
`f"https://www.google.com/maps/search/{place} {city}".replace(" ", "+")`
(the source formats `query = f"{place} {city}".replace(" ", "+")` and
prefixes the search URL). -/
def gmaps_url (place city : String) : String :=
  "https://www.google.com/maps/search/" ++
    (place ++ " " ++ city).replace " " "+"

/-- The id defaulted into an item: `f"day{dayNumber}_item{index}"`. -/
def day_item_id (dayNumber index : Nat) : String :=
  "day" ++ toString dayNumber ++ "_item" ++ toString index

/-- The per-item defaulting loop body from `_parse_crew_result`
(lines 970-992) and `modify_itinerary_chat` (lines 1376-1391).  The
sequential `setdefault`/assignment steps touch disjoint keys, except
that `cost_local`'s default reads the freshly migrated `cost_usd` and
the final `item["cost"] = item["cost_usd"]` overwrites whatever `cost`
held (including the value just popped by the migration); both data flows
are reproduced below. -/
def normalize_item (dayNumber index : Nat) (cityName : String) (it : Item) :
    Item :=
  let newId := it.id.getD (day_item_id dayNumber index)
  let newStatus := it.status.getD "planned"
  let newDelayed := it.delayed_to_day.getD none
  let newAi := it.is_ai_suggested.getD 1
  -- if "cost_usd" not in item: raw = item.pop("cost", 0);
  --   item["cost_usd"] = raw if isinstance(raw, (int, float)) else 0
  let newCostUsd : JVal :=
    match it.cost_usd with
    | some v => v
    | none =>
      match it.cost.getD (.num 0) with
      | .num n => .num n
      | .str _ => .num 0
  let newCostLocal := it.cost_local.getD ("$" ++ newCostUsd.render)
  let newCurrency := it.currency.getD "USD"
  -- if not item.get("google_maps_url"): build it from location/title
  let newUrl :=
    if it.google_maps_url.getD "" = "" then
      gmaps_url (it.location.getD (it.title.getD cityName)) cityName
    else
      it.google_maps_url.getD ""
  { it with
    id := some newId, status := some newStatus,
    delayed_to_day := some newDelayed, is_ai_suggested := some newAi,
    cost_usd := some newCostUsd, cost := some newCostUsd,
    cost_local := some newCostLocal, currency := some newCurrency,
    google_maps_url := some newUrl }

/-- A Gregorian calendar date (as handled by `datetime`). -/
structure Date where
  year : Nat
  month : Nat
  day : Nat
deriving DecidableEq, Repr

/-- One itinerary day (a Python dict; `none` = key absent). -/
structure Day where
  day_number : Option Nat := none
  date : Option Date := none
  city : Option String := none
  items : List Item := []
deriving DecidableEq, Repr

/-- Normalization of one day: `city_name = day.get("city", dest)`,
id defaults use `day.get("day_number", 0)` and the `enumerate` index. -/
def normalize_day (dest : String) (day : Day) : Day :=
  { day with
    items := day.items.enum.map
      (fun p => normalize_item (day.day_number.getD 0) p.1
        (day.city.getD dest) p.2) }

/-- The whole normalization pass over an itinerary. -/
def normalize_itinerary (dest : String) (days : List Day) : List Day :=
  days.map (normalize_day dest)

/-! ### Route estimates and mode recommendation (`RouteAgent.py`) -/

/-- A single-mode route estimate returned by the Distance Matrix call or
the mock fallback (`duration_value` in seconds, `distance_value` in
meters; `transit_name` only present for transit results). -/
structure RouteResult where
  duration_text : String
  duration_value : Nat
  distance_text : String
  distance_value : Nat
  transit_name : Option String := none
deriving DecidableEq, Repr

/-- What `_pick_recommendation` reads from a mode dict: it defends with
`.get("duration_value", 9999)` and `.get("transit_name", "transit")`, so
both keys are optional here. -/
structure Estimate where
  duration_value : Option Nat := none
  transit_name : Option String := none
deriving DecidableEq, Repr

/-- Python `str.lower()` as used on the mode tokens ("walking",
"transit"): per-character lowering. -/
def str_lower (s : String) : String := ⟨s.data.map Char.toLower⟩

/-- View a full route result as `_pick_recommendation` input. -/
def RouteResult.toEstimate (r : RouteResult) : Estimate :=
  { duration_value := some r.duration_value, transit_name := r.transit_name }

/-- `travel_prefs`: `{"avoid": [...], "prefer": [...]}`. -/
structure Prefs where
  avoid : List String := []
  prefer : List String := []
deriving DecidableEq, Repr

/-- `_pick_recommendation(walking, transit, travel_prefs)` (RouteAgent.py
lines 185-222): preference overrides first (avoid beats prefer, walking
checked before transit inside each class), then the default heuristic
`walk_mins <= 15 or walk_secs <= transit_secs`. -/
def pick_recommendation (walking transit : Estimate)
    (travel_prefs : Option Prefs) : String × String :=
  let prefs := travel_prefs.getD {}
  let avoid := prefs.avoid.map str_lower
  let prefer := prefs.prefer.map str_lower
  let walk_secs := walking.duration_value.getD 9999
  let transit_secs := transit.duration_value.getD 9999
  let walk_mins := max 1 (walk_secs / 60)
  let transit_mins := max 1 (transit_secs / 60)
  let transit_label := transit.transit_name.getD "transit"
  if avoid.contains "walking" && !avoid.contains "transit" then
    ("transit", "🚇 Transit " ++ toString transit_mins ++ " min ("
      ++ transit_label ++ ")")
  else if avoid.contains "transit" && !avoid.contains "walking" then
    ("walking", "🚶 Walk " ++ toString walk_mins ++ " min")
  else if prefer.contains "walking" then
    ("walking", "🚶 Walk " ++ toString walk_mins ++ " min")
  else if prefer.contains "transit" then
    ("transit", "🚇 Transit " ++ toString transit_mins ++ " min ("
      ++ transit_label ++ ")")
  else if walk_mins ≤ 15 ∨ walk_secs ≤ transit_secs then
    ("walking", "🚶 Walk " ++ toString walk_mins ++ " min")
  else
    ("transit", "🚇 Transit " ++ toString transit_mins ++ " min ("
      ++ transit_label ++ ")")

/-! ### Deterministic mock fallback (`_mock_route`, RouteAgent.py)

`_mock_route` seeds `random.Random` with `_deterministic_seed(origin,
destination)` (an md5-based stable hash of `f"{origin}|{destination}"`).
The pseudo-random draws of that generator are modelled as explicit
parameters (`MockDraws`) constrained to the ranges the Python `random`
API guarantees: `uniform(a, b) ∈ [a, b]`, `randint(a, b) ∈ [a, b]`,
`choice(l) ∈ l`.  Seeding makes the draws a pure function of the two
strings, so the whole fallback is modelled as a function of the seed.

The arithmetic downstream of the draws runs on Python floats (IEEE-754
binary64): each operation produces the representable value nearest its
exact result.  A positive binary64 value is modelled as a dyadic
rational `m * 2^e` (`B64`), and each float operation as exact integer
arithmetic followed by correct rounding to 53 significant bits
(`fl_nat`; round to nearest, ties to even).  Multiplying by a power of
two is exact, so rounding commutes with the `2^e` scaling and
multiplication/division by a small integer or another float reduce to
`fl_nat` on integer pairs; every value in this model is far from the
overflow and subnormal ranges.  In particular `int(distance_km*12*60)`
is `72*d10` or `72*d10 - 1` depending on the rounding of the underlying
binary value of the one-decimal distance. -/

/-- `_TRANSIT_TYPES`. -/
def transit_types : List String := ["metro", "bus", "tram", "subway", "light rail"]

/-- Fuel-driven binary logarithm (`log2_aux fuel n` = ⌊log₂ n⌋ for
`1 ≤ n ≤ fuel`), kept structurally recursive so that the kernel can
evaluate it. -/
def log2_aux : Nat → Nat → Nat
  | 0, _ => 0
  | fuel + 1, n => if n ≤ 1 then 0 else log2_aux fuel (n / 2) + 1

def nat_log2 (n : Nat) : Nat := log2_aux n n

/-- Round the rational `A / B` to the nearest integer, ties to even —
the rounding of IEEE-754 binary64 arithmetic. -/
def rne_nat (A B : Nat) : Nat :=
  let q := A / B
  let r := A % B
  if 2 * r < B then q
  else if B < 2 * r then q + 1
  else if q % 2 = 0 then q else q + 1

/-- A positive binary64 value as a dyadic rational `m * 2^e` (the pair
need not be normalized; only the value matters). -/
structure B64 where
  m : Nat
  e : Int
deriving DecidableEq, Repr

/-- The rational value of a dyadic pair. -/
def B64.val (x : B64) : ℚ := (x.m : ℚ) * 2 ^ x.e

/-- Integer pair with ratio `(a / b) / 2^e`. -/
def fl_shift (a b : Nat) (e : Int) : Nat × Nat :=
  if e ≤ 0 then (a * 2 ^ (-e).toNat, b) else (a, b * 2 ^ e.toNat)

/-- The exponent at which `a / b` has a 53-bit mantissa:
`2^52 ≤ (a / b) / 2^e < 2^53`. -/
def fl_exp (a b : Nat) : Int :=
  let e0 : Int := (nat_log2 a : Int) - (nat_log2 b : Int) - 52
  let p := fl_shift a b e0
  if p.1 < 2 ^ 52 * p.2 then e0 - 1 else e0

/-- The binary64 value nearest the positive rational `a / b`: round the
53-bit mantissa to nearest, ties to even. -/
def fl_nat (a b : Nat) : B64 :=
  let e := fl_exp a b
  let p := fl_shift a b e
  ⟨rne_nat p.1 p.2, e⟩

/-- Float multiplication of a binary64 value by a small integer
(`x * 12`, `x * 60`, `x * 1000`): exact product, correctly rounded.
Scaling by `2^(x.e)` is exact, so rounding happens on `x.m * c`. -/
def fl_scale (x : B64) (c : Nat) : B64 :=
  let y := fl_nat (x.m * c) 1
  ⟨y.m, y.e + x.e⟩

/-- Float division of an exactly representable integer by a binary64
value (`walk_seconds / transit_speed_factor`): correctly rounded
quotient; scaling by `2^(-f.e)` is exact. -/
def fl_div_nat (a : Nat) (f : B64) : B64 :=
  let y := fl_nat a f.m
  ⟨y.m, y.e - f.e⟩

/-- Python `int()` of a positive binary64 value (truncation = floor). -/
def B64.floor (x : B64) : Nat :=
  if 0 ≤ x.e then x.m * 2 ^ x.e.toNat else x.m / 2 ^ (-x.e).toNat

/-- The pseudo-random draws `_mock_route` takes from its seeded
generator.  `d10` gives `round(rng.uniform(0.3, 5.0), 1)` in tenths of
a km (so `3 ≤ d10 ≤ 50`; the underlying float is the binary64 value
nearest `d10 / 10`), `factor` is the float `rng.uniform(2.0, 4.0)`,
`wait` is `rng.randint(120, 360)`, `tIdx` indexes
`rng.choice(_TRANSIT_TYPES)`. -/
structure MockDraws where
  d10 : Nat
  factor : B64
  wait : Nat
  tIdx : Fin transit_types.length
deriving DecidableEq

/-- `_mock_route` (RouteAgent.py lines 144-178), downstream of the rng
draws, with every float operation correctly rounded:
`distance_m = int(distance_km * 1000)`,
`walk_seconds = int(distance_km * 12 * 60)` (evaluated as
`(distance_km * 12) * 60`),
`transit_seconds = int(walk_seconds / factor) + wait` (the integer
`walk_seconds ≤ 3600` converts to float exactly). -/
def mock_route (dr : MockDraws) : RouteResult × RouteResult :=
  let dist := fl_nat dr.d10 10
  let distance_m := (fl_scale dist 1000).floor
  let walk_seconds := (fl_scale (fl_scale dist 12) 60).floor
  let walk_minutes := max 1 (walk_seconds / 60)
  let transit_seconds := (fl_div_nat walk_seconds dr.factor).floor + dr.wait
  let transit_minutes := max 2 (transit_seconds / 60)
  let distance_text :=
    toString (dr.d10 / 10) ++ "." ++ toString (dr.d10 % 10) ++ " km"
  ({ duration_text := toString walk_minutes ++ " mins",
     duration_value := walk_seconds,
     distance_text := distance_text,
     distance_value := distance_m },
   { duration_text := toString transit_minutes ++ " mins",
     duration_value := transit_seconds,
     distance_text := distance_text,
     distance_value := distance_m,
     transit_name := some (transit_types.get dr.tIdx) })

/-! ### Cache and route resolution (`_gmaps_distance_matrix` /
`get_route`, RouteAgent.py)

The external HTTP call (with its status checks, timeout and exception
swallowing) is a parameter `api`; `none` is any failure.  Missing
credentials (`not api_key or _requests is None`) is the `hasKey = false`
case: the function then returns `None` before even consulting the
cache.  The third output component counts API requests issued by the
call.  The two parallel per-mode calls inside `get_route` are
linearized (walking first); each reads and writes the shared cache. -/

/-- Occurrence of one character list inside another. -/
def substr_in : List Char → List Char → Bool
  | needle, [] => needle.isEmpty
  | needle, c :: rest =>
    needle.isPrefixOf (c :: rest) || substr_in needle rest

/-- Python `needle in haystack` on strings. -/
def py_in (needle haystack : String) : Bool :=
  substr_in needle.data haystack.data

/-- `_qualify(place)`: append `, {city}` when the city is truthy and not
already (case-insensitively) mentioned in the place string. -/
def qualify_place (city place : String) : String :=
  if city ≠ "" ∧ py_in (str_lower city) (str_lower place) = false then
    place ++ ", " ++ city
  else place

/-- The module-level `_route_cache` (key `f"{origin_q}|{dest_q}|{mode}"`). -/
abbrev RouteCache := List (String × RouteResult)

def cache_lookup (c : RouteCache) (k : String) : Option RouteResult :=
  match c.find? (fun p => p.1 == k) with
  | some p => some p.2
  | none => none

def route_cache_key (oq dq mode : String) : String :=
  oq ++ "|" ++ dq ++ "|" ++ mode

/-- `_gmaps_distance_matrix(origin, destination, mode, city)`
(RouteAgent.py lines 55-127).  Returns (payload-or-`none`, cache after
the call, number of API requests issued). -/
def gmaps_distance_matrix (hasKey : Bool)
    (api : String → String → String → Option RouteResult)
    (cache : RouteCache) (origin destination mode city : String) :
    Option RouteResult × RouteCache × Nat :=
  if hasKey = false then (none, cache, 0)
  else
    let oq := qualify_place city origin
    let dq := qualify_place city destination
    let key := route_cache_key oq dq mode
    match cache_lookup cache key with
    | some r => (some r, cache, 0)
    | none =>
      match api oq dq mode with
      | some r => (some r, (key, r) :: cache, 1)
      | none => (none, cache, 1)

/-- The dict `get_route` returns (walking + transit estimates, the
recommended mode and display string). -/
structure TravelInfo where
  walking : RouteResult
  transit : RouteResult
  recommended : String
  display : String
deriving DecidableEq, Repr

/-- `get_route(origin, destination, city, travel_prefs)` (RouteAgent.py
lines 225-262): fetch both modes (each possibly from cache/API), fill
any miss from the deterministic mock, then pick a recommendation. -/
def get_route (hasKey : Bool)
    (api : String → String → String → Option RouteResult)
    (draws : String → String → MockDraws)
    (cache : RouteCache) (origin destination city : String)
    (travel_prefs : Option Prefs) : TravelInfo × RouteCache × Nat :=
  let rw := gmaps_distance_matrix hasKey api cache origin destination
    "walking" city
  let rt := gmaps_distance_matrix hasKey api rw.2.1 origin destination
    "transit" city
  let walking := match rw.1 with
    | some w => w
    | none => (mock_route (draws origin destination)).1
  let transit := match rt.1 with
    | some t => t
    | none => (mock_route (draws origin destination)).2
  let pk := pick_recommendation walking.toEstimate transit.toEstimate
    travel_prefs
  ({ walking := walking, transit := transit,
     recommended := pk.1, display := pk.2 },
   rt.2.1, rw.2.2 + rt.2.2)

/-- A fixed payload for concrete cache runs. -/
def sample_route : RouteResult :=
  { duration_text := "5 mins", duration_value := 300,
    distance_text := "0.4 km", distance_value := 400 }

/-- A draws function standing for the seeded rng pipeline in concrete
runs. -/
def sample_draws : String → String → MockDraws :=
  fun _ _ => ⟨30, ⟨3, 0⟩, 200, ⟨0, by decide⟩⟩

/-! ### Per-day enrichment (`compute_routes_for_day`, RouteAgent.py)

The per-pair `get_route` invocation (two `_gmaps_distance_matrix`
requests, walking + transit) is a parameter `lookup`; `lookup o d =
none` models the pair's future raising an exception, which the `except`
handler converts into an empty `travel_info`.  The pairs are processed
independently (the thread pool writes only `items[idx]` per future), so
the parallel loop is modelled as an index-wise map over consecutive
pairs. -/

/-- An itinerary item as the enricher sees it; `""` models an absent or
falsy `location`/`title` (the code reads them with
`prev.get("location") or prev.get("title", "")`). -/
structure RItem where
  location : String := ""
  title : String := ""
  travel_info : Option TravelInfo := none
deriving DecidableEq, Repr

/-- `item.get("location") or item.get("title", "")`. -/
def origin_of (it : RItem) : String :=
  if it.location ≠ "" then it.location else it.title

/-- The pair filter: `if origin and destination and origin != destination`. -/
def qualifies_pair (prev cur : RItem) : Bool :=
  (origin_of prev != "") && (origin_of cur != "")
    && (origin_of prev != origin_of cur)

/-- What one pair's future does to `items[idx]`: a qualifying pair gets
the lookup result (or empty on a raised exception), a non-qualifying
pair gets an empty segment. -/
def enrich_one (lookup : String → String → Option TravelInfo)
    (prev cur : RItem) : RItem :=
  if qualifies_pair prev cur then
    { cur with travel_info := lookup (origin_of prev) (origin_of cur) }
  else
    { cur with travel_info := none }

/-- `compute_routes_for_day(items, city, travel_prefs)` (RouteAgent.py
lines 265-321).  `items[0]["travel_info"] = {}` is unguarded, so the
empty list is an error (`none`, the IndexError). -/
def compute_routes_for_day (lookup : String → String → Option TravelInfo)
    (items : List RItem) : Option (List RItem) :=
  match items with
  | [] => none
  | first :: rest =>
    some ({ first with travel_info := none } ::
      List.zipWith (enrich_one lookup) (first :: rest) rest)

/-- External lookups issued by one day's enrichment: each qualifying
consecutive pair triggers one `get_route`, i.e. two
`_gmaps_distance_matrix` requests. -/
def lookup_count (items : List RItem) : Nat :=
  2 * (List.zipWith (fun p c => if qualifies_pair p c then 1 else 0)
    items items.tail).sum

/-- The orchestrator's call site (main.py lines 725-732): enrich only
days with more than one item; a 1-item day just gets
`items[0].setdefault("travel_info", {})` (a no-op in this model), and
the empty list is left alone. -/
def main_enrich_day (lookup : String → String → Option TravelInfo)
    (items : List RItem) : List RItem :=
  if 1 < items.length then
    (compute_routes_for_day lookup items).getD items
  else items

/-- A fixed travel-info payload for concrete enrichment runs. -/
def sample_travel_info : TravelInfo :=
  { walking := sample_route, transit := sample_route,
    recommended := "walking", display := "🚶 Walk 5 min" }

/-- A concrete two-item day. -/
def sample_items : List RItem :=
  [{ location := "Louvre" }, { location := "Eiffel Tower" }]

/-! ### Calendar dates (`datetime` arithmetic used by
`_build_fallback_itinerary` and `_calc_duration`) -/

def is_leap (y : Nat) : Bool :=
  (y % 4 == 0 && y % 100 != 0) || y % 400 == 0

def month_days (y m : Nat) : Nat :=
  if m = 2 then (if is_leap y then 29 else 28)
  else if m = 4 ∨ m = 6 ∨ m = 9 ∨ m = 11 then 30
  else 31

/-- `current_date += timedelta(days=1)` on a calendar date. -/
def next_date (d : Date) : Date :=
  if d.day < month_days d.year d.month then ⟨d.year, d.month, d.day + 1⟩
  else if d.month < 12 then ⟨d.year, d.month + 1, 1⟩
  else ⟨d.year + 1, 1, 1⟩

def add_days (d : Date) : Nat → Date
  | 0 => d
  | n + 1 => add_days (next_date d) n

def days_before_month (y m : Nat) : Nat :=
  ((List.range (m - 1)).map (fun k => month_days y (k + 1))).sum

def days_before_year (y : Nat) : Nat :=
  let n := y - 1
  365 * n + n / 4 + n / 400 - n / 100

/-- Proleptic-Gregorian day ordinal (as `datetime.date.toordinal`). -/
def to_ordinal (d : Date) : Nat :=
  days_before_year d.year + days_before_month d.year d.month + d.day

/-- `_calc_duration(start, end) = (end - start).days + 1`. -/
def calc_duration (start e : Date) : Int :=
  (to_ordinal e : Int) - (to_ordinal start : Int) + 1

/-! ### Fallback itinerary builder (`_fallback_day_plan` /
`_build_fallback_itinerary`, planning_agent.py) -/

/-- `_fallback_day_plan(city, day_number)` (lines 412-439): the fixed
5-activity template (breakfast, exploration, lunch, main attraction,
dinner). -/
def fallback_day_plan (city : String) : List Item :=
  [ { start_time := some "08:30", duration_minutes := some 60,
      title := some ("Breakfast in " ++ city),
      description := some "Start the day with a local breakfast",
      item_type := some "meal",
      location := some (city ++ " city center"),
      google_maps_url := some (gmaps_url "breakfast cafe" city),
      cost_usd := some (.num 15), cost_local := some "$15",
      currency := some "USD", notes := some "" },
    { start_time := some "10:00", duration_minutes := some 150,
      title := some ("Explore " ++ city),
      description := some "Walk around the main sights",
      item_type := some "attraction",
      location := some (city ++ " city center"),
      google_maps_url := some (gmaps_url "city center" city),
      cost_usd := some (.num 0), cost_local := some "Free",
      currency := some "USD", notes := some "" },
    { start_time := some "12:30", duration_minutes := some 60,
      title := some ("Lunch in " ++ city),
      description := some "Midday meal at a popular spot",
      item_type := some "meal",
      location := some (city ++ " dining district"),
      google_maps_url := some (gmaps_url "restaurant" city),
      cost_usd := some (.num 25), cost_local := some "$25",
      currency := some "USD", notes := some "" },
    { start_time := some "14:00", duration_minutes := some 180,
      title := some (city ++ " main attraction"),
      description := some "Visit the city highlight",
      item_type := some "attraction",
      location := some (city ++ " main attraction"),
      google_maps_url := some (gmaps_url "top attraction" city),
      cost_usd := some (.num 20), cost_local := some "$20",
      currency := some "USD", notes := some "" },
    { start_time := some "18:00", duration_minutes := some 90,
      title := some ("Dinner in " ++ city),
      description := some "Evening meal",
      item_type := some "meal",
      location := some (city ++ " restaurant district"),
      google_maps_url := some (gmaps_url "dinner restaurant" city),
      cost_usd := some (.num 35), cost_local := some "$35",
      currency := some "USD", notes := some "" } ]

/-- The per-item stamping loop inside `_build_fallback_itinerary`:
`item["id"] = f"day{day_number}_item{i}"`, status "planned", no delay
target, AI-suggested. -/
def stamp_items (dayNumber : Nat) (items : List Item) : List Item :=
  items.enum.map fun p =>
    { p.2 with
      id := some (day_item_id dayNumber p.1),
      status := some "planned",
      delayed_to_day := some none,
      is_ai_suggested := some 1 }

/-- One appended fallback day record. -/
def mk_fallback_day (n : Nat) (dt : Date) (city : String) : Day :=
  { day_number := some n, date := some dt, city := some city,
    items := stamp_items n (fallback_day_plan city) }

/-- The inner `for _ in range(days_per_city[city_idx])` loop:
`day_number = len(itinerary) + 1`, append, advance the date. -/
def build_city_days (city : String) :
    Nat → List Day → Date → List Day × Date
  | 0, acc, cur => (acc, cur)
  | k + 1, acc, cur =>
    build_city_days city k
      (acc ++ [mk_fallback_day (acc.length + 1) cur city]) (next_date cur)

/-- The outer `for city_idx, city in enumerate(cities)` loop. -/
def build_all_days :
    List (String × Nat) → List Day → Date → List Day × Date
  | [], acc, cur => (acc, cur)
  | (city, k) :: rest, acc, cur =>
    let p := build_city_days city k acc cur
    build_all_days rest p.1 p.2

/-- `_build_fallback_itinerary(cities, duration, start_date)`
(planning_agent.py lines 1011-1041). -/
def build_fallback_itinerary (cities : List String) (duration : Nat)
    (start : Date) : List Day :=
  (build_all_days (cities.zip (days_per_city cities duration)) [] start).1

/-- Closed form of the generated day list: one day per entry of a city
list, numbered from `base + 1` and dated consecutively. -/
def day_run (base : Nat) (cur : Date) : List String → List Day
  | [] => []
  | c :: cs =>
    mk_fallback_day (base + 1) cur c :: day_run (base + 1) (next_date cur) cs

/-- The city of each generated day, in order: each city repeated its
allocated number of times. -/
def flatten_city_days (pairs : List (String × Nat)) : List String :=
  (pairs.map (fun p => List.replicate p.2 p.1)).flatten

/-! ### Crew-result itinerary parsing (`_parse_crew_result`,
planning_agent.py lines 965-997)

`parsed = none` models `_safe_json_parse` raising (malformed/non-JSON
output) or a non-list result; a parsed list goes through the
normalization loop; an empty (or failed) result is replaced by the
fallback itinerary. -/

def parse_itinerary_result (dest : String) (parsed : Option (List Day))
    (cities : List String) (duration : Nat) (start : Date) : List Day :=
  let itinerary : List Day :=
    match parsed with
    | some l => if 0 < l.length then l.map (normalize_day dest) else []
    | none => []
  if itinerary.isEmpty then build_fallback_itinerary cities duration start
  else itinerary

/-! ## Theorems -/

/-- Sum of `base + (1 if i < extra else 0)` over `i < n` is
`n * base + min extra n`. -/
theorem sum_base_extra_min (n base extra : Nat) :
    ((List.range n).map (fun i => base + if i < extra then 1 else 0)).sum
      = n * base + min extra n := by
  induction n with
  | zero => simp
  | succ m ih =>
    rw [List.range_succ, List.map_append, List.sum_append, ih]
    rcases Nat.lt_or_ge m extra with hlt | hge
    · have h1 : min extra m = m := Nat.min_eq_right (Nat.le_of_lt hlt)
      have h2 : min extra (m + 1) = m + 1 := Nat.min_eq_right hlt
      simp [h1, h2, hlt, Nat.succ_mul]
      ring
    · have h1 : min extra m = extra := Nat.min_eq_left hge
      have h2 : min extra (m + 1) = extra :=
        Nat.min_eq_left (Nat.le_succ_of_le hge)
      have h3 : ¬ (m < extra) := Nat.not_lt.mpr hge
      simp [h1, h2, h3, Nat.succ_mul]
      ring

/-- Sum of `base + (1 if i < extra else 0)` over `i < n` is `n * base + extra`
when `extra ≤ n`. -/
theorem sum_base_extra (n base extra : Nat) (h : extra ≤ n) :
    ((List.range n).map (fun i => base + if i < extra then 1 else 0)).sum
      = n * base + extra := by
  rw [sum_base_extra_min, Nat.min_eq_left h]

theorem days_per_city_length (cities : List String) (duration : Nat) :
    (days_per_city cities duration).length = cities.length := by
  simp [days_per_city]

theorem days_per_city_sum (cities : List String) (duration : Nat)
    (h : cities ≠ []) :
    (days_per_city cities duration).sum = duration := by
  have hn : 1 ≤ cities.length := by
    cases cities with
    | nil => exact absurd rfl h
    | cons a l => exact Nat.succ_le_succ (Nat.zero_le _)
  have hmax : max cities.length 1 = cities.length := Nat.max_eq_left hn
  unfold days_per_city
  simp only [hmax]
  rw [sum_base_extra _ _ _ (Nat.le_of_lt (Nat.mod_lt _ (Nat.lt_of_lt_of_le Nat.zero_lt_one hn)))]
  exact Nat.div_add_mod duration cities.length

/-- C1: the per-city day allocation returns `n` values, each `base` or
`base + 1` with `base = totalDays div n`, summing exactly to `totalDays`;
`days_per_city ["Tokyo","Kyoto","Osaka"] 10 = [4,3,3]` and
`days_per_city ["Paris"] 7 = [7]`.  (Values are `Nat`, hence
non-negative.) -/
theorem c1_day_allocation (cities : List String) (duration : Nat)
    (hc : cities ≠ []) (hd : 1 ≤ duration) :
    (days_per_city cities duration).length = cities.length ∧
    (days_per_city cities duration).sum = duration ∧
    (∀ v ∈ days_per_city cities duration,
        v = duration / cities.length ∨ v = duration / cities.length + 1) ∧
    days_per_city ["Tokyo", "Kyoto", "Osaka"] 10 = [4, 3, 3] ∧
    days_per_city ["Paris"] 7 = [7] := by
  have hn : 1 ≤ cities.length := by
    cases cities with
    | nil => exact absurd rfl hc
    | cons a l => exact Nat.succ_le_succ (Nat.zero_le _)
  have hmax : max cities.length 1 = cities.length := Nat.max_eq_left hn
  refine ⟨days_per_city_length _ _, days_per_city_sum _ _ hc, ?_, by decide, by decide⟩
  intro v hv
  unfold days_per_city at hv
  simp only [hmax, List.mem_map, List.mem_range] at hv
  obtain ⟨i, _, hi⟩ := hv
  by_cases hlt : i < duration % cities.length
  · right; rw [← hi]; simp [hlt]
  · left; rw [← hi]; simp [hlt]

/-- Witness for C1 at a concrete input. -/
theorem c1_day_allocation_witness :
    (days_per_city ["Tokyo", "Kyoto", "Osaka"] 10).sum = 10 :=
  (c1_day_allocation ["Tokyo", "Kyoto", "Osaka"] 10 (by decide) (by decide)).2.1

theorem gmaps_url_ne_empty (place city : String) :
    gmaps_url place city ≠ "" := by
  intro h
  have hlen := congrArg String.length h
  rw [gmaps_url, String.length_append] at hlen
  simp at hlen
  exact (by decide : "https://www.google.com/maps/search/".length ≠ 0) hlen.1

/-- `normalize_item` is idempotent. -/
theorem normalize_item_idem (dayNumber index : Nat) (cityName : String)
    (it : Item) :
    normalize_item dayNumber index cityName
        (normalize_item dayNumber index cityName it)
      = normalize_item dayNumber index cityName it := by
  obtain ⟨fid, fstatus, fdel, fai, fcusd, fcost, flocal, fcurr, furl, floc,
    ftitle, fst, fdm, fdesc, fity, fnotes⟩ := it
  by_cases h : furl.getD "" = ""
  · simp [normalize_item, h, gmaps_url_ne_empty]
  · simp [normalize_item, h]

/-- Re-enumerating a list produced by an index-aware map yields the same
indices paired with the mapped values. -/
theorem enumFrom_map_apply {α β : Type} (g : Nat × α → β) :
    ∀ (l : List α) (n : Nat),
      ((l.enumFrom n).map g).enumFrom n
        = (l.enumFrom n).map (fun p => (p.1, g p))
  | [], _ => rfl
  | a :: l, n => by
    simp only [List.enumFrom, List.map_cons]
    rw [enumFrom_map_apply g l (n + 1)]

/-- `normalize_day` is idempotent. -/
theorem normalize_day_idem (dest : String) (day : Day) :
    normalize_day dest (normalize_day dest day) = normalize_day dest day := by
  obtain ⟨dn, dt, dc, ditems⟩ := day
  simp only [normalize_day, List.enum]
  rw [enumFrom_map_apply, List.map_map]
  have hfun :
      ((fun (p : Nat × Item) =>
          normalize_item (dn.getD 0) p.1 (dc.getD dest) p.2) ∘
        fun (p : Nat × Item) =>
          (p.1, normalize_item (dn.getD 0) p.1 (dc.getD dest) p.2))
        = fun (p : Nat × Item) =>
            normalize_item (dn.getD 0) p.1 (dc.getD dest) p.2 :=
    funext fun _ => normalize_item_idem _ _ _ _
  rw [hfun]

/-- `normalize_itinerary` is idempotent. -/
theorem normalize_itinerary_idem (dest : String) (days : List Day) :
    normalize_itinerary dest (normalize_itinerary dest days)
      = normalize_itinerary dest days := by
  simp only [normalize_itinerary, List.map_map]
  have hfun : (normalize_day dest ∘ normalize_day dest)
      = normalize_day dest := funext fun d => normalize_day_idem dest d
  rw [hfun]

/-- C7: the per-item normalization is idempotent (applying it twice equals
applying it once) and it never overwrites an explicitly present field —
`setdefault` keeps existing values for id, status, delay target,
AI-suggested flag, cost_usd, cost_local and currency, a non-empty maps
URL is kept, and the only overwrite is the sanctioned mirror of
`cost_usd` into the legacy `cost` field (untouched fields such as
location/title are preserved as well). -/
theorem c7_normalize_idempotent :
    (∀ dest days, normalize_itinerary dest (normalize_itinerary dest days)
        = normalize_itinerary dest days) ∧
    (∀ dn i c it,
      (∀ v, it.id = some v → (normalize_item dn i c it).id = some v) ∧
      (∀ v, it.status = some v →
        (normalize_item dn i c it).status = some v) ∧
      (∀ v, it.delayed_to_day = some v →
        (normalize_item dn i c it).delayed_to_day = some v) ∧
      (∀ v, it.is_ai_suggested = some v →
        (normalize_item dn i c it).is_ai_suggested = some v) ∧
      (∀ v, it.cost_usd = some v →
        (normalize_item dn i c it).cost_usd = some v) ∧
      (∀ v, it.cost_local = some v →
        (normalize_item dn i c it).cost_local = some v) ∧
      (∀ v, it.currency = some v →
        (normalize_item dn i c it).currency = some v) ∧
      (∀ v, it.google_maps_url = some v → v ≠ "" →
        (normalize_item dn i c it).google_maps_url = some v) ∧
      (∀ v, it.cost_usd = some v →
        (normalize_item dn i c it).cost = some v) ∧
      ((normalize_item dn i c it).location = it.location ∧
        (normalize_item dn i c it).title = it.title)) := by
  refine ⟨normalize_itinerary_idem, fun dn i c it => ?_⟩
  refine ⟨?_, ?_, ?_, ?_, ?_, ?_, ?_, ?_, ?_, ?_⟩
  · intro v hv; simp [normalize_item, hv]
  · intro v hv; simp [normalize_item, hv]
  · intro v hv; simp [normalize_item, hv]
  · intro v hv; simp [normalize_item, hv]
  · intro v hv; simp [normalize_item, hv]
  · intro v hv; simp [normalize_item, hv]
  · intro v hv; simp [normalize_item, hv]
  · intro v hv hne; simp [normalize_item, hv, hne]
  · intro v hv; simp [normalize_item, hv]
  · exact ⟨by simp [normalize_item], by simp [normalize_item]⟩

/-- Witness for C7 at concrete inputs. -/
theorem c7_normalize_idempotent_witness :
    normalize_itinerary "Rome"
        (normalize_itinerary "Rome"
          [{ day_number := some 1, city := some "Rome",
             items := [{ title := some "Colosseum" }] }])
      = normalize_itinerary "Rome"
          [{ day_number := some 1, city := some "Rome",
             items := [{ title := some "Colosseum" }] }] ∧
    (normalize_item 1 0 "Rome" { status := some "completed" }).status
      = some "completed" :=
  ⟨c7_normalize_idempotent.1 "Rome" _,
    (c7_normalize_idempotent.2 1 0 "Rome" _).2.1 "completed" rfl⟩

/-- C5: `pick_recommendation` follows the documented resolution order —
(1) a mode in `avoid` (the other not) forces the other mode, (2) else a
mode in `prefer` wins (walking checked first), (3) else walking is
chosen exactly when its minute count is ≤ 15 or its duration is ≤ the
transit duration; consequently with "walking" avoided the result is
never "walking" unless "transit" is also avoided. -/
theorem c5_pick_resolution (walking transit : Estimate) (p : Option Prefs) :
    (((p.getD {}).avoid.map str_lower).contains "walking" = true →
      ((p.getD {}).avoid.map str_lower).contains "transit" = false →
      (pick_recommendation walking transit p).1 = "transit") ∧
    (((p.getD {}).avoid.map str_lower).contains "transit" = true →
      ((p.getD {}).avoid.map str_lower).contains "walking" = false →
      (pick_recommendation walking transit p).1 = "walking") ∧
    ((((p.getD {}).avoid.map str_lower).contains "walking"
        = ((p.getD {}).avoid.map str_lower).contains "transit") →
      ((p.getD {}).prefer.map str_lower).contains "walking" = true →
      (pick_recommendation walking transit p).1 = "walking") ∧
    ((((p.getD {}).avoid.map str_lower).contains "walking"
        = ((p.getD {}).avoid.map str_lower).contains "transit") →
      ((p.getD {}).prefer.map str_lower).contains "walking" = false →
      ((p.getD {}).prefer.map str_lower).contains "transit" = true →
      (pick_recommendation walking transit p).1 = "transit") ∧
    ((((p.getD {}).avoid.map str_lower).contains "walking"
        = ((p.getD {}).avoid.map str_lower).contains "transit") →
      ((p.getD {}).prefer.map str_lower).contains "walking" = false →
      ((p.getD {}).prefer.map str_lower).contains "transit" = false →
      ((pick_recommendation walking transit p).1 = "walking" ↔
        (max 1 (walking.duration_value.getD 9999 / 60) ≤ 15 ∨
          walking.duration_value.getD 9999
            ≤ transit.duration_value.getD 9999))) ∧
    (((p.getD {}).avoid.map str_lower).contains "walking" = true →
      (pick_recommendation walking transit p).1 = "walking" →
      ((p.getD {}).avoid.map str_lower).contains "transit" = true) := by
  have hne : ("transit" : String) ≠ "walking" := by decide
  simp only [pick_recommendation]
  generalize ((p.getD {}).avoid.map str_lower).contains "walking" = aw
  generalize ((p.getD {}).avoid.map str_lower).contains "transit" = at'
  generalize ((p.getD {}).prefer.map str_lower).contains "walking" = pw
  generalize ((p.getD {}).prefer.map str_lower).contains "transit" = pt
  by_cases hheur : (walking.duration_value.getD 9999 / 60 ≤ 15 ∨
      walking.duration_value.getD 9999 ≤ transit.duration_value.getD 9999) <;>
    cases aw <;> cases at' <;> cases pw <;> cases pt <;>
      simp [hheur, hne]

/-- `log2_aux` computes the binary logarithm when given enough fuel. -/
theorem log2_aux_spec :
    ∀ (fuel n : Nat), n ≤ fuel → 1 ≤ n →
      2 ^ log2_aux fuel n ≤ n ∧ n < 2 ^ (log2_aux fuel n + 1) := by
  intro fuel
  induction fuel with
  | zero => intro n h1 h2; omega
  | succ fuel ih =>
    intro n h1 h2
    by_cases hn : n ≤ 1
    · have hone : n = 1 := by omega
      subst hone
      simp [log2_aux]
    · have h3 : n / 2 ≤ fuel := by omega
      have h4 : 1 ≤ n / 2 := by omega
      have hih := ih (n / 2) h3 h4
      simp only [log2_aux, if_neg hn]
      have e1 : 2 ^ (log2_aux fuel (n / 2) + 1)
          = 2 * 2 ^ log2_aux fuel (n / 2) := by ring
      have e2 : 2 ^ (log2_aux fuel (n / 2) + 1 + 1)
          = 2 * 2 ^ (log2_aux fuel (n / 2) + 1) := by ring
      omega

theorem nat_log2_spec (n : Nat) (h : 1 ≤ n) :
    2 ^ nat_log2 n ≤ n ∧ n < 2 ^ (nat_log2 n + 1) :=
  log2_aux_spec n n le_rfl h

/-- Round-to-nearest on an integer quotient is within half. -/
theorem rne_nat_err (A B : Nat) (hB : 1 ≤ B) :
    |(rne_nat A B : ℚ) - (A : ℚ) / B| ≤ 1 / 2 := by
  have hB0 : (0 : ℚ) < B := by exact_mod_cast hB
  have hdm : B * (A / B) + A % B = A := Nat.div_add_mod A B
  have hdmQ : (B : ℚ) * ((A / B : Nat) : ℚ) + ((A % B : Nat) : ℚ) = (A : ℚ) := by
    exact_mod_cast congrArg (fun n : Nat => (n : ℚ)) hdm
  have hsplit : (A : ℚ) / B = ((A / B : Nat) : ℚ) + ((A % B : Nat) : ℚ) / B := by
    field_simp
    linarith [hdmQ]
  have hrlt : A % B < B := Nat.mod_lt _ (by omega)
  have hrltQ : ((A % B : Nat) : ℚ) < B := by exact_mod_cast hrlt
  have hrnn : (0 : ℚ) ≤ ((A % B : Nat) : ℚ) := by positivity
  simp only [rne_nat]
  by_cases h1 : 2 * (A % B) < B
  · rw [if_pos h1]
    have h1Q : 2 * ((A % B : Nat) : ℚ) < B := by exact_mod_cast h1
    rw [hsplit, show ((A / B : Nat) : ℚ)
        - (((A / B : Nat) : ℚ) + ((A % B : Nat) : ℚ) / B)
        = -(((A % B : Nat) : ℚ) / B) from by ring, abs_neg,
      abs_of_nonneg (by positivity), div_le_iff hB0]
    linarith
  · rw [if_neg h1]
    by_cases h2 : B < 2 * (A % B)
    · rw [if_pos h2]
      have h2Q : (B : ℚ) < 2 * ((A % B : Nat) : ℚ) := by exact_mod_cast h2
      have hlt1 : ((A % B : Nat) : ℚ) / B < 1 := (div_lt_one hB0).mpr hrltQ
      push_cast
      rw [hsplit, show (((A / B : Nat) : ℚ) + 1)
          - (((A / B : Nat) : ℚ) + ((A % B : Nat) : ℚ) / B)
          = 1 - ((A % B : Nat) : ℚ) / B from by ring,
        abs_of_nonneg (by linarith)]
      rw [show (1 : ℚ) - ((A % B : Nat) : ℚ) / B ≤ 1 / 2
          ↔ 1 / 2 ≤ ((A % B : Nat) : ℚ) / B from by constructor <;>
            (intro h; linarith), le_div_iff hB0]
      linarith
    · rw [if_neg h2]
      have heq : 2 * (A % B) = B := by omega
      have heqQ : 2 * ((A % B : Nat) : ℚ) = (B : ℚ) := by exact_mod_cast heq
      have hhalf : ((A % B : Nat) : ℚ) / B = 1 / 2 := by
        rw [div_eq_div_iff hB0.ne' (by norm_num : (2 : ℚ) ≠ 0)]
        linarith
      by_cases h3 : (A / B) % 2 = 0
      · rw [if_pos h3, hsplit, show ((A / B : Nat) : ℚ)
            - (((A / B : Nat) : ℚ) + ((A % B : Nat) : ℚ) / B)
            = -(((A % B : Nat) : ℚ) / B) from by ring, abs_neg, hhalf,
          abs_of_nonneg (by norm_num : (0 : ℚ) ≤ 1 / 2)]
      · rw [if_neg h3]
        push_cast
        rw [hsplit, show (((A / B : Nat) : ℚ) + 1)
            - (((A / B : Nat) : ℚ) + ((A % B : Nat) : ℚ) / B)
            = 1 - ((A % B : Nat) : ℚ) / B from by ring, hhalf]
        rw [show (1 : ℚ) - 1 / 2 = 1 / 2 from by norm_num,
          abs_of_nonneg (by norm_num : (0 : ℚ) ≤ 1 / 2)]

theorem fl_shift_snd_pos (a b : Nat) (hb : 1 ≤ b) (e : Int) :
    1 ≤ (fl_shift a b e).2 := by
  simp only [fl_shift]
  split
  · exact hb
  · have h2 : 0 < 2 ^ e.toNat := pow_pos (by norm_num) _
    exact Nat.one_le_iff_ne_zero.mpr (Nat.mul_ne_zero (by omega) (by omega))

theorem fl_shift_div (a b : Nat) (hb : (b : ℚ) ≠ 0) (e : Int) :
    ((fl_shift a b e).1 : ℚ) / ((fl_shift a b e).2 : ℚ)
      = (a : ℚ) / b * 2 ^ (-e) := by
  by_cases he : e ≤ 0
  · simp only [fl_shift, if_pos he]
    push_cast
    rw [show ((2 : ℚ) ^ (-e).toNat : ℚ) = (2 : ℚ) ^ (-e : ℤ) from by
      rw [← zpow_natCast]; congr 1; omega]
    rw [mul_div_right_comm]
  · simp only [fl_shift, if_neg he]
    push_cast
    rw [show ((2 : ℚ) ^ e.toNat : ℚ) = (2 : ℚ) ^ (e : ℤ) from by
      rw [← zpow_natCast]; congr 1; omega]
    rw [zpow_neg, div_mul_eq_div_div, div_eq_mul_inv]

/-- The chosen exponent keeps the mantissa at least `2^52`: the rounding
unit of `fl_nat` is at most `(a / b) / 2^52`. -/
theorem fl_nat_lower (a b : Nat) (ha : 1 ≤ a) (hb : 1 ≤ b) :
    (2 : ℚ) ^ (52 : ℕ) ≤ (a : ℚ) / b * 2 ^ (-(fl_exp a b)) := by
  have hbQ : ((b : ℚ)) ≠ 0 := Nat.cast_ne_zero.mpr (by omega)
  have haQ : (0 : ℚ) < (a : ℚ) := by exact_mod_cast (by omega : 0 < a)
  have hbQ' : (0 : ℚ) < (b : ℚ) := by exact_mod_cast (by omega : 0 < b)
  obtain ⟨hA1, _⟩ := nat_log2_spec a ha
  obtain ⟨_, hB2⟩ := nat_log2_spec b hb
  have hA1Q : (2 : ℚ) ^ ((nat_log2 a : ℤ)) ≤ (a : ℚ) := by
    rw [show (2 : ℚ) ^ ((nat_log2 a : ℤ)) = ((2 ^ nat_log2 a : ℕ) : ℚ) from by
      push_cast
      rw [zpow_natCast]]
    exact_mod_cast hA1
  have hB2Q : (b : ℚ) < (2 : ℚ) ^ ((nat_log2 b : ℤ) + 1) := by
    rw [show (2 : ℚ) ^ ((nat_log2 b : ℤ) + 1) = ((2 ^ (nat_log2 b + 1) : ℕ) : ℚ) from by
      push_cast
      try rw [← zpow_natCast]
      try congr 1
      try omega]
    exact_mod_cast hB2
  have key : (2 : ℚ) ^ (51 : ℤ)
      < (a : ℚ) / b * 2 ^ (-((nat_log2 a : ℤ) - nat_log2 b - 52)) := by
    have hstep : (2 : ℚ) ^ ((nat_log2 a : ℤ)) / 2 ^ ((nat_log2 b : ℤ) + 1)
        < (a : ℚ) / b := by
      calc (2 : ℚ) ^ ((nat_log2 a : ℤ)) / 2 ^ ((nat_log2 b : ℤ) + 1)
          ≤ (a : ℚ) / 2 ^ ((nat_log2 b : ℤ) + 1) := by gcongr
        _ < (a : ℚ) / b := by
          apply div_lt_div_of_pos_left haQ hbQ' hB2Q
    have hpow : (0 : ℚ) < (2 : ℚ) ^ (-((nat_log2 a : ℤ) - nat_log2 b - 52)) :=
      zpow_pos (by norm_num) _
    have hmul := mul_lt_mul_of_pos_right hstep hpow
    calc (2 : ℚ) ^ (51 : ℤ)
        = (2 : ℚ) ^ ((nat_log2 a : ℤ)) / 2 ^ ((nat_log2 b : ℤ) + 1)
            * 2 ^ (-((nat_log2 a : ℤ) - nat_log2 b - 52)) := by
          rw [div_mul_eq_mul_div, ← zpow_add₀ (by norm_num : (2 : ℚ) ≠ 0),
            ← zpow_sub₀ (by norm_num : (2 : ℚ) ≠ 0)]
          congr 1
          ring
      _ < (a : ℚ) / b * 2 ^ (-((nat_log2 a : ℤ) - nat_log2 b - 52)) := hmul
  by_cases hcond : (fl_shift a b ((nat_log2 a : ℤ) - nat_log2 b - 52)).1
      < 2 ^ 52 * (fl_shift a b ((nat_log2 a : ℤ) - nat_log2 b - 52)).2
  · have hfe : fl_exp a b = (nat_log2 a : ℤ) - nat_log2 b - 52 - 1 := by
      simp only [fl_exp]
      rw [if_pos hcond]
    rw [hfe]
    have hsplit : (a : ℚ) / b * 2 ^ (-((nat_log2 a : ℤ) - nat_log2 b - 52 - 1))
        = (a : ℚ) / b * 2 ^ (-((nat_log2 a : ℤ) - nat_log2 b - 52)) * 2 := by
      rw [show -((nat_log2 a : ℤ) - nat_log2 b - 52 - 1)
          = -((nat_log2 a : ℤ) - nat_log2 b - 52) + 1 from by ring,
        zpow_add₀ (by norm_num : (2 : ℚ) ≠ 0), zpow_one]
      ring
    rw [hsplit]
    have h52 : (2 : ℚ) ^ (52 : ℕ) = 2 ^ (51 : ℤ) * 2 := by
      rw [show (2 : ℚ) ^ (52 : ℕ) = (2 : ℚ) ^ ((52 : ℕ) : ℤ) from
        (zpow_natCast 2 52).symm]
      rw [show ((52 : ℕ) : ℤ) = 51 + 1 from by norm_num,
        zpow_add₀ (by norm_num : (2 : ℚ) ≠ 0), zpow_one]
    rw [h52]
    linarith
  · have hfe : fl_exp a b = (nat_log2 a : ℤ) - nat_log2 b - 52 := by
      simp only [fl_exp]
      rw [if_neg hcond]
    rw [hfe]
    have hle : (2 : ℚ) ^ (52 : ℕ)
        * ((fl_shift a b ((nat_log2 a : ℤ) - nat_log2 b - 52)).2 : ℚ)
        ≤ ((fl_shift a b ((nat_log2 a : ℤ) - nat_log2 b - 52)).1 : ℚ) := by
      have h := Nat.le_of_not_lt hcond
      exact_mod_cast h
    have hp2 : (0 : ℚ)
        < ((fl_shift a b ((nat_log2 a : ℤ) - nat_log2 b - 52)).2 : ℚ) := by
      exact_mod_cast (by
        have := fl_shift_snd_pos a b hb ((nat_log2 a : ℤ) - nat_log2 b - 52)
        omega : 0 < (fl_shift a b ((nat_log2 a : ℤ) - nat_log2 b - 52)).2)
    rw [← fl_shift_div a b hbQ ((nat_log2 a : ℤ) - nat_log2 b - 52),
      le_div_iff hp2]
    linarith

/-- `fl_nat` has relative error at most `2^-53`: correct rounding to 53
significant bits. -/
theorem fl_nat_err (a b : Nat) (ha : 1 ≤ a) (hb : 1 ≤ b) :
    |(fl_nat a b).val - (a : ℚ) / b| ≤ ((a : ℚ) / b) / 2 ^ (53 : ℕ) := by
  have hbQ : ((b : ℚ)) ≠ 0 := Nat.cast_ne_zero.mpr (by omega)
  have hp2 : 1 ≤ (fl_shift a b (fl_exp a b)).2 := fl_shift_snd_pos a b hb _
  have hdiv := fl_shift_div a b hbQ (fl_exp a b)
  have hrne := rne_nat_err (fl_shift a b (fl_exp a b)).1
    (fl_shift a b (fl_exp a b)).2 hp2
  have hpow_pos : (0 : ℚ) < (2 : ℚ) ^ fl_exp a b := zpow_pos (by norm_num) _
  have hco : (2 : ℚ) ^ (-(fl_exp a b)) * (2 : ℚ) ^ fl_exp a b = 1 := by
    rw [← zpow_add₀ (by norm_num : (2 : ℚ) ≠ 0)]
    simp
  have hval : (fl_nat a b).val
      = (rne_nat (fl_shift a b (fl_exp a b)).1
          (fl_shift a b (fl_exp a b)).2 : ℚ) * 2 ^ fl_exp a b := rfl
  have hkey : (fl_nat a b).val - (a : ℚ) / b
      = ((rne_nat (fl_shift a b (fl_exp a b)).1
            (fl_shift a b (fl_exp a b)).2 : ℚ)
          - ((fl_shift a b (fl_exp a b)).1 : ℚ)
              / ((fl_shift a b (fl_exp a b)).2 : ℚ))
        * 2 ^ fl_exp a b := by
    rw [hval, hdiv]
    linear_combination ((a : ℚ) / b) * hco
  rw [hkey, abs_mul, abs_of_pos hpow_pos]
  have h2e : (2 : ℚ) ^ fl_exp a b ≤ ((a : ℚ) / b) / 2 ^ (52 : ℕ) := by
    have hlow := fl_nat_lower a b ha hb
    rw [le_div_iff (by positivity : (0 : ℚ) < (2 : ℚ) ^ (52 : ℕ))]
    have hmul := mul_le_mul_of_nonneg_right hlow hpow_pos.le
    rw [mul_assoc, hco, mul_one] at hmul
    linarith
  have hfin := mul_le_mul hrne h2e hpow_pos.le
    (by norm_num : (0 : ℚ) ≤ 1 / 2)
  have heq : (1 : ℚ) / 2 * (((a : ℚ) / b) / 2 ^ (52 : ℕ))
      = ((a : ℚ) / b) / 2 ^ (53 : ℕ) := by
    rw [show ((2 : ℚ) ^ (53 : ℕ)) = 2 ^ (52 : ℕ) * 2 from by norm_num]
    ring
  linarith [hfin]

/-- `int()` truncation of a positive binary64 value is the floor of its
rational value. -/
theorem B64_floor_val (x : B64) : ((B64.floor x : ℕ) : ℤ) = ⌊x.val⌋ := by
  by_cases he : 0 ≤ x.e
  · have hval : x.val = ((x.m * 2 ^ x.e.toNat : ℕ) : ℚ) := by
      simp only [B64.val]
      push_cast
      rw [← zpow_natCast, Int.toNat_of_nonneg he]
    simp only [B64.floor, if_pos he]
    rw [hval, Int.floor_natCast]
  · simp only [B64.floor, if_neg he]
    have hpos : (0 : ℚ) < ((2 ^ (-x.e).toNat : ℕ) : ℚ) := by
      exact_mod_cast pow_pos (by norm_num : (0 : ℕ) < 2) (-x.e).toNat
    have hval : x.val = (x.m : ℚ) / ((2 ^ (-x.e).toNat : ℕ) : ℚ) := by
      have hE : x.e = -(((-x.e).toNat : ℤ)) := by omega
      simp only [B64.val]
      conv_lhs => rw [hE]
      rw [zpow_neg, zpow_natCast]
      push_cast
      rw [div_eq_mul_inv]
    rw [hval]
    symm
    rw [Int.floor_eq_iff]
    constructor
    · rw [le_div_iff hpos]
      push_cast
      exact_mod_cast Nat.div_mul_le_self x.m (2 ^ (-x.e).toNat)
    · rw [div_lt_iff hpos]
      have hmod : x.m % 2 ^ (-x.e).toNat < 2 ^ (-x.e).toNat :=
        Nat.mod_lt _ (pow_pos (by norm_num) _)
      have hnat : x.m < (x.m / 2 ^ (-x.e).toNat + 1) * 2 ^ (-x.e).toNat :=
        calc x.m = 2 ^ (-x.e).toNat * (x.m / 2 ^ (-x.e).toNat)
              + x.m % 2 ^ (-x.e).toNat := (Nat.div_add_mod _ _).symm
          _ < 2 ^ (-x.e).toNat * (x.m / 2 ^ (-x.e).toNat)
              + 2 ^ (-x.e).toNat := Nat.add_lt_add_left hmod _
          _ = (x.m / 2 ^ (-x.e).toNat + 1) * 2 ^ (-x.e).toNat := by ring
      push_cast
      exact_mod_cast hnat

/-- The float-truncated quotient `int(walk_seconds / factor)` is within
one of the exact `⌊walk_seconds / factor⌋`. -/
theorem fl_div_floor_near (ws : Nat) (f : B64) (hws : 1 ≤ ws)
    (hws2 : ws ≤ 3600) (hf2 : 2 ≤ f.val) (hf4 : f.val ≤ 4) :
    ⌊(ws : ℚ) / f.val⌋ - 1 ≤ ((fl_div_nat ws f).floor : ℤ) ∧
    ((fl_div_nat ws f).floor : ℤ) ≤ ⌊(ws : ℚ) / f.val⌋ + 1 := by
  have hm : 1 ≤ f.m := by
    by_contra h
    have hm0 : f.m = 0 := by omega
    have hv0 : f.val = 0 := by simp [B64.val, hm0]
    rw [hv0] at hf2
    norm_num at hf2
  have hfpos : (0 : ℚ) < f.val := by linarith
  have hwsQ : (0 : ℚ) < (ws : ℚ) := by exact_mod_cast (by omega : 0 < ws)
  have hmQ : ((f.m : ℚ)) ≠ 0 := Nat.cast_ne_zero.mpr (by omega)
  have hpow : (0 : ℚ) < (2 : ℚ) ^ (-f.e) := zpow_pos (by norm_num) _
  have hval : (fl_div_nat ws f).val = (fl_nat ws f.m).val * 2 ^ (-f.e) := by
    simp only [fl_div_nat, B64.val]
    rw [zpow_sub₀ (by norm_num : (2 : ℚ) ≠ 0), zpow_neg]
    ring
  have hqrel : (ws : ℚ) / f.val = (ws : ℚ) / f.m * 2 ^ (-f.e) := by
    simp only [B64.val]
    rw [zpow_neg, div_mul_eq_div_div, div_eq_mul_inv]
  have herr := fl_nat_err ws f.m hws hm
  have herr2 : |(fl_div_nat ws f).val - (ws : ℚ) / f.val|
      ≤ ((ws : ℚ) / f.val) / 2 ^ (53 : ℕ) := by
    rw [hval, hqrel,
      show (fl_nat ws f.m).val * 2 ^ (-f.e)
          - (ws : ℚ) / f.m * 2 ^ (-f.e)
        = ((fl_nat ws f.m).val - (ws : ℚ) / f.m) * 2 ^ (-f.e) from by ring,
      abs_mul, abs_of_pos hpow,
      show (ws : ℚ) / f.m * 2 ^ (-f.e) / 2 ^ (53 : ℕ)
        = ((ws : ℚ) / f.m / 2 ^ (53 : ℕ)) * 2 ^ (-f.e) from by ring]
    exact mul_le_mul_of_nonneg_right herr hpow.le
  have hq_le : (ws : ℚ) / f.val ≤ 1800 := by
    rw [div_le_iff hfpos]
    have h36 : (ws : ℚ) ≤ 3600 := by exact_mod_cast hws2
    nlinarith
  have hsmall : ((ws : ℚ) / f.val) / 2 ^ (53 : ℕ) ≤ 1 / 2 := by
    rw [div_le_iff (by positivity : (0 : ℚ) < (2 : ℚ) ^ (53 : ℕ))]
    have hbig : (1800 : ℚ) ≤ 1 / 2 * 2 ^ (53 : ℕ) := by norm_num
    linarith
  have habs := abs_le.mp (le_trans herr2 hsmall)
  rw [B64_floor_val]
  constructor
  · apply Int.le_floor.mpr
    have h1 : ((((⌊(ws : ℚ) / f.val⌋ : ℤ) - 1 : ℤ)) : ℚ)
        ≤ (ws : ℚ) / f.val - 1 / 2 := by
      push_cast
      have := Int.floor_le ((ws : ℚ) / f.val)
      linarith
    linarith [habs.1]
  · have h2 : (fl_div_nat ws f).val
        < (((⌊(ws : ℚ) / f.val⌋ : ℤ) + 2 : ℤ) : ℚ) := by
      push_cast
      have := Int.lt_floor_add_one ((ws : ℚ) / f.val)
      linarith [habs.2]
    have := Int.floor_lt.mpr h2
    omega

set_option maxRecDepth 10000 in
/-- The per-tenth-km table of the float walking pipeline: the shared
distance cast `int(distance_km * 1000)` is exact, and
`int(distance_km * 12 * 60)` is `72 * k` or `72 * k - 1`. -/
theorem mock_walk_table :
    ∀ k : Nat, k < 51 → 3 ≤ k →
      (fl_scale (fl_nat k 10) 1000).floor = 100 * k ∧
      72 * k - 1 ≤ (fl_scale (fl_scale (fl_nat k 10) 12) 60).floor ∧
      (fl_scale (fl_scale (fl_nat k 10) 12) 60).floor ≤ 72 * k := by
  decide

set_option maxRecDepth 10000 in
/-- C4, counterexample: the draw `d10 = 3` (the 0.3 km distance, with the
seeded rng of `_mock_route`) yields `walk_seconds = 215`, not the
`0.3 km × 12 min/km = 216 s` the claim's "walking time equal to distance
× 12 min/km" asserts: `int(distance_km * 12 * 60)` truncates the binary64
product, which for 0.3 km lies just below 216. -/
theorem c4_counterexample_walk_truncation :
    (mock_route ⟨3, ⟨3, 0⟩, 200, ⟨0, by decide⟩⟩).1.distance_value = 300 ∧
    (mock_route ⟨3, ⟨3, 0⟩, 200, ⟨0, by decide⟩⟩).1.duration_value = 215 ∧
    ¬ (((mock_route ⟨3, ⟨3, 0⟩, 200, ⟨0, by decide⟩⟩).1.duration_value : ℚ)
        = ((mock_route ⟨3, ⟨3, 0⟩, 200, ⟨0, by decide⟩⟩).1.distance_value : ℚ)
          / 1000 * 12 * 60) := by
  have h1 : (mock_route ⟨3, ⟨3, 0⟩, 200, ⟨0, by decide⟩⟩).1.duration_value
      = 215 := by decide
  have h2 : (mock_route ⟨3, ⟨3, 0⟩, 200, ⟨0, by decide⟩⟩).1.distance_value
      = 300 := by decide
  refine ⟨h2, h1, ?_⟩
  rw [h1, h2]
  norm_num

set_option maxHeartbeats 800000 in
/-- C4 (amended): the mock fallback is a deterministic function of the
origin and destination strings; under the documented rng draw ranges
(`d10` tenths of km in `[3, 50]`, factor in `[2.0, 4.0]`, wait in
`[120, 360]` seconds) both modes share the straight-line distance
`100 * d10` meters (the `int(distance_km * 1000)` cast is exact), which
lies in `[0.3, 5.0]` km; the walking time is `int(distance_km * 12 * 60)`
— at most, and within one second below, distance × 12 min/km; the transit
time is `int(walk_seconds / factor) + wait`, within one second of
`⌊walk_seconds / factor⌋` plus the wait (the float quotient's relative
error cannot move the truncation further); and the transit mode name is
drawn from the fixed vocabulary `_TRANSIT_TYPES`. -/
theorem c4_mock_fallback (dr : MockDraws)
    (hd1 : 3 ≤ dr.d10) (hd2 : dr.d10 ≤ 50)
    (hf1 : 2 ≤ dr.factor.val) (hf2 : dr.factor.val ≤ 4)
    (hw1 : 120 ≤ dr.wait) (hw2 : dr.wait ≤ 360) :
    (mock_route dr).1.distance_value = (mock_route dr).2.distance_value ∧
    (mock_route dr).1.distance_text = (mock_route dr).2.distance_text ∧
    (mock_route dr).1.distance_value = 100 * dr.d10 ∧
    300 ≤ (mock_route dr).1.distance_value ∧
    (mock_route dr).1.distance_value ≤ 5000 ∧
    ((mock_route dr).1.duration_value : ℚ)
      ≤ ((mock_route dr).1.distance_value : ℚ) / 1000 * 12 * 60 ∧
    ((mock_route dr).1.distance_value : ℚ) / 1000 * 12 * 60 - 1
      ≤ ((mock_route dr).1.duration_value : ℚ) ∧
    ⌊((mock_route dr).1.duration_value : ℚ) / dr.factor.val⌋ - 1
        + (dr.wait : ℤ)
      ≤ ((mock_route dr).2.duration_value : ℤ) ∧
    ((mock_route dr).2.duration_value : ℤ)
      ≤ ⌊((mock_route dr).1.duration_value : ℚ) / dr.factor.val⌋ + 1
        + (dr.wait : ℤ) ∧
    (∃ name ∈ transit_types, (mock_route dr).2.transit_name = some name) ∧
    (∀ (seedFn : String → String → Nat) (drawsFn : Nat → MockDraws)
        (o d o2 d2 : String), o = o2 → d = d2 →
      mock_route (drawsFn (seedFn o d)) = mock_route (drawsFn (seedFn o2 d2)))
    := by
  obtain ⟨htd, htlo, hthi⟩ := mock_walk_table dr.d10 (by omega) hd1
  have hws1 : 1 ≤ (fl_scale (fl_scale (fl_nat dr.d10 10) 12) 60).floor := by
    omega
  have hws2 : (fl_scale (fl_scale (fl_nat dr.d10 10) 12) 60).floor
      ≤ 3600 := by omega
  have hfl := fl_div_floor_near _ dr.factor hws1 hws2 hf1 hf2
  refine ⟨?_, ?_, ?_, ?_, ?_, ?_, ?_, ?_, ?_, ?_, ?_⟩
  · simp only [mock_route]
  · simp only [mock_route]
  · simp only [mock_route]
    exact htd
  · simp only [mock_route]
    omega
  · simp only [mock_route]
    omega
  · simp only [mock_route]
    rw [htd]
    have hQ : ((fl_scale (fl_scale (fl_nat dr.d10 10) 12) 60).floor : ℚ)
        ≤ 72 * (dr.d10 : ℚ) := by exact_mod_cast hthi
    push_cast
    linarith
  · simp only [mock_route]
    rw [htd]
    have h72 : 72 * dr.d10
        ≤ (fl_scale (fl_scale (fl_nat dr.d10 10) 12) 60).floor + 1 := by
      omega
    have hQ : (72 : ℚ) * (dr.d10 : ℚ)
        ≤ ((fl_scale (fl_scale (fl_nat dr.d10 10) 12) 60).floor : ℚ) + 1 := by
      exact_mod_cast h72
    push_cast
    linarith
  · simp only [mock_route]
    push_cast
    omega
  · simp only [mock_route]
    push_cast
    omega
  · simp only [mock_route]
    exact ⟨transit_types.get dr.tIdx,
      List.get_mem transit_types dr.tIdx.1 dr.tIdx.2, rfl⟩
  · intro seedFn drawsFn o d o2 d2 ho hd
    subst ho
    subst hd
    rfl

/-- C4 witness: the concrete draws `d10 = 30`, factor the float `3.0`,
wait `200`, transit index `1` satisfy every range hypothesis; the
resulting shared distance is `3000` meters and the transit name comes
from the vocabulary. -/
theorem c4_mock_fallback_witness :
    (3 ≤ (30 : Nat) ∧ (30 : Nat) ≤ 50 ∧
     2 ≤ (B64.mk 3 0).val ∧ (B64.mk 3 0).val ≤ 4 ∧
     120 ≤ (200 : Nat) ∧ (200 : Nat) ≤ 360) ∧
    (mock_route ⟨30, ⟨3, 0⟩, 200, ⟨1, by decide⟩⟩).1.distance_value
      = 100 * 30 ∧
    (∃ name ∈ transit_types,
      (mock_route ⟨30, ⟨3, 0⟩, 200, ⟨1, by decide⟩⟩).2.transit_name
        = some name) := by
  obtain ⟨h1, h2, h3, h4, h5, h6, h7, h8, h9, h10, h11⟩ :=
    c4_mock_fallback ⟨30, ⟨3, 0⟩, 200, ⟨1, by decide⟩⟩
      (by decide) (by decide) (by norm_num [B64.val]) (by norm_num [B64.val])
      (by decide) (by decide)
  exact ⟨⟨by decide, by decide, by norm_num [B64.val], by norm_num [B64.val],
    by decide, by decide⟩, h3, h10⟩

theorem string_append_left_cancel {s a b : String}
    (h : s ++ a = s ++ b) : a = b := by
  have hd := congrArg String.data h
  rw [String.data_append, String.data_append] at hd
  have hab := List.append_cancel_left hd
  cases a with
  | mk da =>
    cases b with
    | mk db => exact congrArg String.mk hab

/-- The walking and transit cache keys of one pair never collide. -/
theorem route_key_mode_ne (oq dq : String) :
    route_cache_key oq dq "walking" ≠ route_cache_key oq dq "transit" := by
  intro h
  have := string_append_left_cancel (s := oq ++ "|" ++ dq ++ "|") h
  exact (by decide : ("walking" : String) ≠ "transit") this

theorem cache_lookup_cons (k k' : String) (r : RouteResult)
    (c : RouteCache) :
    cache_lookup ((k, r) :: c) k'
      = if k = k' then some r else cache_lookup c k' := by
  by_cases h : k = k'
  · subst h
    simp [cache_lookup, List.find?]
  · simp only [cache_lookup, List.find?]
    have : (k == k') = false := by simp [h]
    simp [this, h]

theorem gmaps_nokey (api : String → String → String → Option RouteResult)
    (cache : RouteCache) (o d m city : String) :
    gmaps_distance_matrix false api cache o d m city = (none, cache, 0) :=
  rfl

theorem gmaps_hit (api : String → String → String → Option RouteResult)
    (cache : RouteCache) (o d m city : String) (r : RouteResult)
    (h : cache_lookup cache
      (route_cache_key (qualify_place city o) (qualify_place city d) m)
        = some r) :
    gmaps_distance_matrix true api cache o d m city = (some r, cache, 0) := by
  simp [gmaps_distance_matrix, h]

theorem gmaps_miss_api_some
    (api : String → String → String → Option RouteResult)
    (cache : RouteCache) (o d m city : String) (r : RouteResult)
    (h : cache_lookup cache
      (route_cache_key (qualify_place city o) (qualify_place city d) m)
        = none)
    (ha : api (qualify_place city o) (qualify_place city d) m = some r) :
    gmaps_distance_matrix true api cache o d m city
      = (some r,
         (route_cache_key (qualify_place city o) (qualify_place city d) m,
           r) :: cache, 1) := by
  simp [gmaps_distance_matrix, h, ha]

theorem gmaps_miss_api_none
    (api : String → String → String → Option RouteResult)
    (cache : RouteCache) (o d m city : String)
    (h : cache_lookup cache
      (route_cache_key (qualify_place city o) (qualify_place city d) m)
        = none)
    (ha : api (qualify_place city o) (qualify_place city d) m = none) :
    gmaps_distance_matrix true api cache o d m city = (none, cache, 1) := by
  simp [gmaps_distance_matrix, h, ha]

/-- Resolving the same query again, starting from the cache produced by a
first resolution, returns the same route info and leaves the cache
unchanged (for an `api` that behaves as a function). -/
theorem get_route_stable (hasKey : Bool)
    (api : String → String → String → Option RouteResult)
    (draws : String → String → MockDraws) (cache : RouteCache)
    (o d city : String) (p : Option Prefs) :
    (get_route hasKey api draws
        (get_route hasKey api draws cache o d city p).2.1 o d city p).1
      = (get_route hasKey api draws cache o d city p).1 ∧
    (get_route hasKey api draws
        (get_route hasKey api draws cache o d city p).2.1 o d city p).2.1
      = (get_route hasKey api draws cache o d city p).2.1 := by
  cases hasKey with
  | false => exact ⟨rfl, rfl⟩
  | true =>
    have hkne : route_cache_key (qualify_place city o) (qualify_place city d)
        "walking" ≠ route_cache_key (qualify_place city o)
          (qualify_place city d) "transit" := route_key_mode_ne _ _
    rcases hlw : cache_lookup cache (route_cache_key (qualify_place city o)
        (qualify_place city d) "walking") with _ | rw
    · -- walking: cache miss
      rcases haw : api (qualify_place city o) (qualify_place city d)
          "walking" with _ | rw
      · -- walking: API failure, nothing cached
        have h1 := gmaps_miss_api_none api cache o d "walking" city hlw haw
        rcases hlt : cache_lookup cache (route_cache_key
            (qualify_place city o) (qualify_place city d) "transit")
          with _ | rt
        · rcases hat : api (qualify_place city o) (qualify_place city d)
              "transit" with _ | rt
          · -- transit: miss + API failure
            have h2 := gmaps_miss_api_none api cache o d "transit" city
              hlt hat
            simp [get_route, h1, h2]
          · -- transit: miss + API success, transit key cached
            have h2 := gmaps_miss_api_some api cache o d "transit" city rt
              hlt hat
            have hlw2 : cache_lookup ((route_cache_key (qualify_place city o)
                (qualify_place city d) "transit", rt) :: cache)
                (route_cache_key (qualify_place city o)
                  (qualify_place city d) "walking") = none := by
              rw [cache_lookup_cons, if_neg (fun h => hkne h.symm)]
              exact hlw
            have h3 := gmaps_miss_api_none api _ o d "walking" city hlw2 haw
            have hlt2 : cache_lookup ((route_cache_key (qualify_place city o)
                (qualify_place city d) "transit", rt) :: cache)
                (route_cache_key (qualify_place city o)
                  (qualify_place city d) "transit") = some rt := by
              rw [cache_lookup_cons, if_pos rfl]
            have h4 := gmaps_hit api _ o d "transit" city rt hlt2
            simp [get_route, h1, h2, h3, h4]
        · -- transit: cache hit
          have h2 := gmaps_hit api cache o d "transit" city rt hlt
          simp [get_route, h1, h2]
      · -- walking: API success, walking key cached
        have h1 := gmaps_miss_api_some api cache o d "walking" city rw
          hlw haw
        have hlw1 : cache_lookup ((route_cache_key (qualify_place city o)
            (qualify_place city d) "walking", rw) :: cache)
            (route_cache_key (qualify_place city o)
              (qualify_place city d) "walking") = some rw := by
          rw [cache_lookup_cons, if_pos rfl]
        rcases hlt : cache_lookup cache (route_cache_key
            (qualify_place city o) (qualify_place city d) "transit")
          with _ | rt
        · rcases hat : api (qualify_place city o) (qualify_place city d)
              "transit" with _ | rt
          · -- transit: miss + API failure
            have hlt1 : cache_lookup ((route_cache_key (qualify_place city o)
                (qualify_place city d) "walking", rw) :: cache)
                (route_cache_key (qualify_place city o)
                  (qualify_place city d) "transit") = none := by
              rw [cache_lookup_cons, if_neg hkne]
              exact hlt
            have h2 := gmaps_miss_api_none api _ o d "transit" city hlt1 hat
            have h3 := gmaps_hit api _ o d "walking" city rw hlw1
            simp [get_route, h1, h2, h3]
          · -- transit: miss + API success, both keys cached
            have hlt1 : cache_lookup ((route_cache_key (qualify_place city o)
                (qualify_place city d) "walking", rw) :: cache)
                (route_cache_key (qualify_place city o)
                  (qualify_place city d) "transit") = none := by
              rw [cache_lookup_cons, if_neg hkne]
              exact hlt
            have h2 := gmaps_miss_api_some api _ o d "transit" city rt
              hlt1 hat
            have hlw2 : cache_lookup ((route_cache_key (qualify_place city o)
                (qualify_place city d) "transit", rt) ::
                (route_cache_key (qualify_place city o)
                  (qualify_place city d) "walking", rw) :: cache)
                (route_cache_key (qualify_place city o)
                  (qualify_place city d) "walking") = some rw := by
              rw [cache_lookup_cons, if_neg (fun h => hkne h.symm)]
              exact hlw1
            have h3 := gmaps_hit api _ o d "walking" city rw hlw2
            have hlt2 : cache_lookup ((route_cache_key (qualify_place city o)
                (qualify_place city d) "transit", rt) ::
                (route_cache_key (qualify_place city o)
                  (qualify_place city d) "walking", rw) :: cache)
                (route_cache_key (qualify_place city o)
                  (qualify_place city d) "transit") = some rt := by
              rw [cache_lookup_cons, if_pos rfl]
            have h4 := gmaps_hit api _ o d "transit" city rt hlt2
            simp [get_route, h1, h2, h3, h4]
        · -- transit: cache hit
          have hlt1 : cache_lookup ((route_cache_key (qualify_place city o)
              (qualify_place city d) "walking", rw) :: cache)
              (route_cache_key (qualify_place city o)
                (qualify_place city d) "transit") = some rt := by
            rw [cache_lookup_cons, if_neg hkne]
            exact hlt
          have h2 := gmaps_hit api _ o d "transit" city rt hlt1
          have h3 := gmaps_hit api _ o d "walking" city rw hlw1
          simp [get_route, h1, h2, h3]
    · -- walking: cache hit
      have h1 := gmaps_hit api cache o d "walking" city rw hlw
      rcases hlt : cache_lookup cache (route_cache_key
          (qualify_place city o) (qualify_place city d) "transit")
        with _ | rt
      · rcases hat : api (qualify_place city o) (qualify_place city d)
            "transit" with _ | rt
        · -- transit: miss + API failure
          have h2 := gmaps_miss_api_none api cache o d "transit" city
            hlt hat
          simp [get_route, h1, h2]
        · -- transit: miss + API success
          have h2 := gmaps_miss_api_some api cache o d "transit" city rt
            hlt hat
          have hlw2 : cache_lookup ((route_cache_key (qualify_place city o)
              (qualify_place city d) "transit", rt) :: cache)
              (route_cache_key (qualify_place city o)
                (qualify_place city d) "walking") = some rw := by
            rw [cache_lookup_cons, if_neg (fun h => hkne h.symm)]
            exact hlw
          have h3 := gmaps_hit api _ o d "walking" city rw hlw2
          have hlt2 : cache_lookup ((route_cache_key (qualify_place city o)
              (qualify_place city d) "transit", rt) :: cache)
              (route_cache_key (qualify_place city o)
                (qualify_place city d) "transit") = some rt := by
            rw [cache_lookup_cons, if_pos rfl]
          have h4 := gmaps_hit api _ o d "transit" city rt hlt2
          simp [get_route, h1, h2, h3, h4]
      · -- transit: cache hit
        have h2 := gmaps_hit api cache o d "transit" city rt hlt
        simp [get_route, h1, h2]

/-- C3 (counterexample): with credentials present but the mapping API
failing, the first resolution of ("Louvre", "Eiffel Tower", walking) is
served by the fallback, and afterwards the route cache is still empty —
the next resolution of the same inputs is *not* served from the cache,
contradicting the claim that the cache is hit after every first
resolution including fallback-served ones. -/
theorem c3_counterexample_fallback_not_cached :
    (get_route true (fun _ _ _ => none) sample_draws [] "Louvre"
        "Eiffel Tower" "Paris" none).1.walking
      = (mock_route (sample_draws "Louvre" "Eiffel Tower")).1 ∧
    (get_route true (fun _ _ _ => none) sample_draws [] "Louvre"
        "Eiffel Tower" "Paris" none).2.1 = ([] : RouteCache) ∧
    cache_lookup
      (get_route true (fun _ _ _ => none) sample_draws [] "Louvre"
          "Eiffel Tower" "Paris" none).2.1
      (route_cache_key (qualify_place "Paris" "Louvre")
        (qualify_place "Paris" "Eiffel Tower") "walking") = none :=
  ⟨rfl, rfl, rfl⟩

/-- C3 (amended): once a (origin, destination, mode) triple has been
resolved *by the live mapping API* (or from the cache), the key is in
the route cache and every later resolution of the same inputs is served
from the cache — same payload, same cache, zero API requests.
Fallback-served resolutions are not cached, but re-resolving the same
query still returns identical route data and leaves the cache
unchanged. -/
theorem c3_cache_hit_after_api_resolution :
    (∀ (hasKey : Bool) api (cache : RouteCache) (o d m city : String)
        (r : RouteResult) (c' : RouteCache) (k : Nat),
      gmaps_distance_matrix hasKey api cache o d m city = (some r, c', k) →
      cache_lookup c' (route_cache_key (qualify_place city o)
          (qualify_place city d) m) = some r ∧
      gmaps_distance_matrix hasKey api c' o d m city = (some r, c', 0)) ∧
    (∀ (hasKey : Bool) api (draws : String → String → MockDraws)
        (cache : RouteCache) (o d city : String) (p : Option Prefs),
      (get_route hasKey api draws
          (get_route hasKey api draws cache o d city p).2.1 o d city p).1
        = (get_route hasKey api draws cache o d city p).1 ∧
      (get_route hasKey api draws
          (get_route hasKey api draws cache o d city p).2.1 o d city p).2.1
        = (get_route hasKey api draws cache o d city p).2.1) := by
  constructor
  · intro hasKey api cache o d m city r c' k h
    cases hasKey with
    | false =>
      rw [gmaps_nokey] at h
      simp at h
    | true =>
      rcases hl : cache_lookup cache (route_cache_key (qualify_place city o)
          (qualify_place city d) m) with _ | r0
      · rcases ha : api (qualify_place city o) (qualify_place city d) m
            with _ | ra
        · rw [gmaps_miss_api_none api cache o d m city hl ha] at h
          simp at h
        · rw [gmaps_miss_api_some api cache o d m city ra hl ha] at h
          simp only [Prod.mk.injEq, Option.some.injEq] at h
          obtain ⟨h1, h2, _⟩ := h
          rw [← h1, ← h2]
          have hcons : cache_lookup ((route_cache_key (qualify_place city o)
              (qualify_place city d) m, ra) :: cache)
              (route_cache_key (qualify_place city o)
                (qualify_place city d) m) = some ra := by
            rw [cache_lookup_cons, if_pos rfl]
          exact ⟨hcons, gmaps_hit api _ o d m city ra hcons⟩
      · rw [gmaps_hit api cache o d m city r0 hl] at h
        simp only [Prod.mk.injEq, Option.some.injEq] at h
        obtain ⟨h1, h2, _⟩ := h
        rw [← h1, ← h2]
        exact ⟨hl, gmaps_hit api _ o d m city r0 hl⟩
  · intro hasKey api draws cache o d city p
    exact get_route_stable hasKey api draws cache o d city p

/-- Witness for the amended C3 at a concrete input: after a successful
API resolution the second identical call is answered from the cache. -/
theorem c3_cache_hit_after_api_resolution_witness :
    gmaps_distance_matrix true (fun _ _ _ => some sample_route)
        [(route_cache_key "A" "B" "walking", sample_route)]
        "A" "B" "walking" ""
      = (some sample_route,
         [(route_cache_key "A" "B" "walking", sample_route)], 0) :=
  (c3_cache_hit_after_api_resolution.1 true (fun _ _ _ => some sample_route)
    [] "A" "B" "walking" "" sample_route
    [(route_cache_key "A" "B" "walking", sample_route)] 1 rfl).2

theorem zip_qualifies_sum_le (l1 l2 : List RItem) :
    (List.zipWith (fun p c => if qualifies_pair p c then 1 else 0)
      l1 l2).sum ≤ l2.length := by
  induction l1 generalizing l2 with
  | nil => simp
  | cons a l ih =>
    cases l2 with
    | nil => simp
    | cons b l2 =>
      simp only [List.zipWith, List.sum_cons, List.length_cons]
      have h1 : (if qualifies_pair a b then 1 else 0) ≤ 1 := by
        split <;> omega
      have h2 := ih l2
      omega

theorem get_zipWith_eq {α β γ : Type} (f : α → β → γ) :
    ∀ (l1 : List α) (l2 : List β) (i : Nat)
      (h1 : i < l1.length) (h2 : i < l2.length)
      (h : i < (List.zipWith f l1 l2).length),
      (List.zipWith f l1 l2).get ⟨i, h⟩
        = f (l1.get ⟨i, h1⟩) (l2.get ⟨i, h2⟩)
  | a :: l1, b :: l2, 0, _, _, _ => rfl
  | a :: l1, b :: l2, i + 1, h1, h2, h => by
    simp only [List.zipWith, List.get_cons_succ]
    exact get_zipWith_eq f l1 l2 i (Nat.lt_of_succ_lt_succ h1)
      (Nat.lt_of_succ_lt_succ h2) (by simpa using h)

theorem enrich_one_travel_info (lookup : String → String → Option TravelInfo)
    (prev cur : RItem)
    (hs : (lookup (origin_of prev) (origin_of cur)).isSome = true) :
    ((enrich_one lookup prev cur).travel_info = none
      ↔ qualifies_pair prev cur = false) := by
  by_cases hq : qualifies_pair prev cur
  · rcases hlk : lookup (origin_of prev) (origin_of cur) with _ | v
    · rw [hlk] at hs
      simp at hs
    · simp [enrich_one, hq, hlk]
  · simp [enrich_one, hq]

theorem enrich_one_congr (lookup lookup' : String → String → Option TravelInfo)
    (prev cur : RItem)
    (h : lookup (origin_of prev) (origin_of cur)
      = lookup' (origin_of prev) (origin_of cur)) :
    enrich_one lookup prev cur = enrich_one lookup' prev cur := by
  simp only [enrich_one, h]

theorem enrich_one_fail (lookup : String → String → Option TravelInfo)
    (prev cur : RItem)
    (h : lookup (origin_of prev) (origin_of cur) = none) :
    (enrich_one lookup prev cur).travel_info = none := by
  by_cases hq : qualifies_pair prev cur
  · simp [enrich_one, hq, h]
  · simp [enrich_one, hq]

/-- C2: enrichment of a non-empty day keeps the item count, gives item 0
the empty segment, gives each later item a segment that is empty exactly
when its pair does not qualify (equal or empty origin/destination) —
provided every lookup succeeds — and issues at most `2 × (k-1)` external
lookups; a 1-item day issues zero lookups and only gets the leading
empty segment. -/
theorem c2_enrich_day (lookup : String → String → Option TravelInfo)
    (items : List RItem) (hne : items ≠ [])
    (hsucc : ∀ o d, (lookup o d).isSome = true) :
    compute_routes_for_day lookup items
      = some ((compute_routes_for_day lookup items).getD []) ∧
    ((compute_routes_for_day lookup items).getD []).length
      = items.length ∧
    (∀ h0 : 0 < ((compute_routes_for_day lookup items).getD []).length,
      (((compute_routes_for_day lookup items).getD []).get
        ⟨0, h0⟩).travel_info = none) ∧
    (∀ (i : Nat) (h1 : i < items.length) (h2 : i + 1 < items.length)
        (h3 : i + 1
          < ((compute_routes_for_day lookup items).getD []).length),
      ((((compute_routes_for_day lookup items).getD []).get
          ⟨i + 1, h3⟩).travel_info = none
        ↔ qualifies_pair (items.get ⟨i, h1⟩) (items.get ⟨i + 1, h2⟩)
            = false)) ∧
    lookup_count items ≤ 2 * (items.length - 1) ∧
    (items.length = 1 →
      lookup_count items = 0 ∧
      compute_routes_for_day lookup items
        = some [{ items.head hne with travel_info := none }]) := by
  cases items with
  | nil => exact absurd rfl hne
  | cons first rest =>
    simp only [compute_routes_for_day, Option.getD_some]
    refine ⟨by trivial, ?_, ?_, ?_, ?_, ?_⟩
    · simp [List.length_zipWith]
    · intro h0
      rfl
    · intro i h1 h2 h3
      have h2' : i < rest.length := Nat.lt_of_succ_lt_succ h2
      have h3' : i
          < (List.zipWith (enrich_one lookup) (first :: rest) rest).length := by
        simpa using Nat.lt_of_succ_lt_succ h3
      rw [List.get_cons_succ,
        get_zipWith_eq (enrich_one lookup) (first :: rest) rest i h1 h2' h3']
      exact enrich_one_travel_info lookup _ _ (hsucc _ _)
    · have hle := zip_qualifies_sum_le (first :: rest) (first :: rest).tail
      simp only [lookup_count, List.tail_cons] at hle ⊢
      simp only [List.length_cons]
      omega
    · intro hlen
      have hrest : rest = [] := by
        simpa using List.length_eq_zero.mp (by simpa using hlen)
      subst hrest
      exact ⟨by rfl, by rfl⟩

/-- Witness for C2 at a concrete input. -/
theorem c2_enrich_day_witness :
    ((compute_routes_for_day (fun _ _ => some sample_travel_info)
      sample_items).getD []).length = sample_items.length :=
  (c2_enrich_day (fun _ _ => some sample_travel_info) sample_items
    (by simp [sample_items]) (fun _ _ => rfl)).2.1

/-- C6: each enriched item's segment depends only on its own pair's
lookup: if two lookup functions agree on pair `i`'s origin/destination,
position `i+1` of the enriched day is identical under both (so one
pair's failure leaves every other item's segment unchanged), and if the
lookup for pair `i` raises (returns `none`) then item `i+1` degrades to
the empty segment. -/
theorem c6_pair_failure_isolated
    (lookup lookup' : String → String → Option TravelInfo)
    (items : List RItem) (i : Nat)
    (h1 : i < items.length) (h2 : i + 1 < items.length) :
    (lookup (origin_of (items.get ⟨i, h1⟩))
        (origin_of (items.get ⟨i + 1, h2⟩))
      = lookup' (origin_of (items.get ⟨i, h1⟩))
          (origin_of (items.get ⟨i + 1, h2⟩)) →
      ∀ (h3 : i + 1
          < ((compute_routes_for_day lookup items).getD []).length)
        (h4 : i + 1
          < ((compute_routes_for_day lookup' items).getD []).length),
        ((compute_routes_for_day lookup items).getD []).get ⟨i + 1, h3⟩
          = ((compute_routes_for_day lookup' items).getD []).get
              ⟨i + 1, h4⟩) ∧
    (lookup' (origin_of (items.get ⟨i, h1⟩))
        (origin_of (items.get ⟨i + 1, h2⟩)) = none →
      ∀ (h4 : i + 1
          < ((compute_routes_for_day lookup' items).getD []).length),
        (((compute_routes_for_day lookup' items).getD []).get
          ⟨i + 1, h4⟩).travel_info = none) := by
  cases items with
  | nil => exact absurd h1 (by simp)
  | cons first rest =>
    simp only [compute_routes_for_day, Option.getD_some]
    have h2' : i < rest.length := Nat.lt_of_succ_lt_succ h2
    constructor
    · intro hagree h3 h4
      have h3' : i
          < (List.zipWith (enrich_one lookup) (first :: rest) rest).length := by
        simpa using Nat.lt_of_succ_lt_succ h3
      have h4' : i
          < (List.zipWith (enrich_one lookup') (first :: rest) rest).length := by
        simpa using Nat.lt_of_succ_lt_succ h4
      rw [List.get_cons_succ,
        get_zipWith_eq (enrich_one lookup) (first :: rest) rest i h1 h2' h3',
        List.get_cons_succ,
        get_zipWith_eq (enrich_one lookup') (first :: rest) rest i h1 h2' h4']
      exact enrich_one_congr lookup lookup' _ _ hagree
    · intro hfail h4
      have h4' : i
          < (List.zipWith (enrich_one lookup') (first :: rest) rest).length := by
        simpa using Nat.lt_of_succ_lt_succ h4
      rw [List.get_cons_succ,
        get_zipWith_eq (enrich_one lookup') (first :: rest) rest i h1 h2' h4']
      exact enrich_one_fail lookup' _ _ hfail

/-- Witness for C6 at a concrete input. -/
theorem c6_pair_failure_isolated_witness :
    (((compute_routes_for_day (fun _ _ => none) sample_items).getD
      []).get ⟨1, by simp [compute_routes_for_day, sample_items]⟩).travel_info
      = none :=
  (c6_pair_failure_isolated (fun _ _ => some sample_travel_info)
      (fun _ _ => none) sample_items 0 (by simp [sample_items])
      (by simp [sample_items])).2 rfl _

/-- C10: `compute_routes_for_day` has the implicit precondition that the
items list is non-empty — on `[]` the unguarded `items[0]` assignment is
an error (`none`), while any non-empty list succeeds; the orchestrator's
call-site guard only invokes it for days with more than one item, so the
error case is never reached there. -/
theorem c10_nonempty_precondition :
    (∀ lookup, compute_routes_for_day lookup ([] : List RItem) = none) ∧
    (∀ (lookup : String → String → Option TravelInfo)
        (items : List RItem), items ≠ [] →
      (compute_routes_for_day lookup items).isSome = true) ∧
    (∀ (lookup : String → String → Option TravelInfo)
        (items : List RItem), items.length ≤ 1 →
      main_enrich_day lookup items = items) ∧
    (∀ (lookup : String → String → Option TravelInfo)
        (items : List RItem), 1 < items.length →
      compute_routes_for_day lookup items ≠ none) := by
  refine ⟨fun _ => rfl, ?_, ?_, ?_⟩
  · intro lookup items h
    cases items with
    | nil => exact absurd rfl h
    | cons first rest => simp [compute_routes_for_day]
  · intro lookup items h
    rw [main_enrich_day, if_neg (by omega)]
  · intro lookup items h
    cases items with
    | nil => simp at h
    | cons first rest => simp [compute_routes_for_day]

/-- Witness for C10 at a concrete input. -/
theorem c10_nonempty_precondition_witness :
    (compute_routes_for_day (fun _ _ => none) sample_items).isSome
      = true :=
  c10_nonempty_precondition.2.1 (fun _ _ => none) sample_items
    (by simp [sample_items])

theorem add_days_add (d : Date) (m n : Nat) :
    add_days d (m + n) = add_days (add_days d m) n := by
  induction m generalizing d with
  | zero => simp [add_days]
  | succ m ih =>
    rw [Nat.add_right_comm]
    show add_days (next_date d) (m + n) = _
    rw [ih (next_date d)]
    rfl

theorem day_run_length (cs : List String) :
    ∀ (base : Nat) (cur : Date), (day_run base cur cs).length = cs.length := by
  induction cs with
  | nil => intro base cur; rfl
  | cons c cs ih =>
    intro base cur
    simp [day_run, ih]

theorem day_run_append (l1 l2 : List String) :
    ∀ (base : Nat) (cur : Date),
      day_run base cur (l1 ++ l2)
        = day_run base cur l1
          ++ day_run (base + l1.length) (add_days cur l1.length) l2 := by
  induction l1 with
  | nil =>
    intro base cur
    simp [day_run, add_days]
  | cons c l1 ih =>
    intro base cur
    have h2 : add_days (next_date cur) l1.length
        = add_days cur (l1.length + 1) := by
      rw [Nat.add_comm l1.length 1, add_days_add]
      rfl
    show mk_fallback_day (base + 1) cur c
        :: day_run (base + 1) (next_date cur) (l1 ++ l2) = _
    rw [ih (base + 1) (next_date cur),
      show base + 1 + l1.length = base + (l1.length + 1) from by omega, h2]
    simp [day_run]

theorem build_city_days_eq (city : String) :
    ∀ (k : Nat) (acc : List Day) (cur : Date),
      build_city_days city k acc cur
        = (acc ++ day_run acc.length cur (List.replicate k city),
           add_days cur k) := by
  intro k
  induction k with
  | zero =>
    intro acc cur
    simp [build_city_days, day_run, add_days, List.replicate]
  | succ k ih =>
    intro acc cur
    rw [build_city_days, ih]
    have hlen : (acc ++ [mk_fallback_day (acc.length + 1) cur city]).length
        = acc.length + 1 := by simp
    rw [hlen]
    have hadd : add_days (next_date cur) k = add_days cur (k + 1) := by
      rw [Nat.add_comm k 1, add_days_add]
      rfl
    rw [hadd]
    have hrun : day_run acc.length cur (List.replicate (k + 1) city)
        = mk_fallback_day (acc.length + 1) cur city
          :: day_run (acc.length + 1) (next_date cur)
            (List.replicate k city) := by
      rw [List.replicate_succ]
      rfl
    rw [hrun]
    simp

theorem build_all_days_eq :
    ∀ (pairs : List (String × Nat)) (acc : List Day) (cur : Date),
      build_all_days pairs acc cur
        = (acc ++ day_run acc.length cur (flatten_city_days pairs),
           add_days cur (flatten_city_days pairs).length) := by
  intro pairs
  induction pairs with
  | nil =>
    intro acc cur
    simp [build_all_days, flatten_city_days, day_run, add_days]
  | cons p rest ih =>
    intro acc cur
    obtain ⟨city, k⟩ := p
    rw [build_all_days]
    show build_all_days rest (build_city_days city k acc cur).1
        (build_city_days city k acc cur).2 = _
    rw [build_city_days_eq, ih]
    have hflat : flatten_city_days ((city, k) :: rest)
        = List.replicate k city ++ flatten_city_days rest := by
      simp [flatten_city_days]
    have hlen : (acc ++ day_run acc.length cur (List.replicate k city)).length
        = acc.length + k := by
      simp [day_run_length]
    have hrep : (List.replicate k city).length = k :=
      List.length_replicate k city
    rw [hflat, day_run_append, hlen, List.length_append, hrep, add_days_add,
      List.append_assoc]

theorem flatten_zip_length (cities : List String) (duration : Nat)
    (hc : cities ≠ []) :
    (flatten_city_days (cities.zip (days_per_city cities duration))).length
      = duration := by
  have hlen : (days_per_city cities duration).length = cities.length :=
    days_per_city_length cities duration
  have hmap : ((cities.zip (days_per_city cities duration)).map Prod.snd)
      = days_per_city cities duration :=
    List.map_snd_zip _ _ (by rw [hlen])
  calc (flatten_city_days (cities.zip (days_per_city cities duration))).length
      = (((cities.zip (days_per_city cities duration)).map
          (fun p => List.replicate p.2 p.1)).map List.length).sum := by
        simp [flatten_city_days]
    _ = (((cities.zip (days_per_city cities duration)).map Prod.snd)).sum := by
        rw [List.map_map]
        congr 1
        apply List.map_congr_left
        intro p _
        simp
    _ = duration := by rw [hmap]; exact days_per_city_sum cities duration hc

/-- Shared: the fallback itinerary has exactly `duration` days. -/
theorem build_fallback_length (cities : List String) (duration : Nat)
    (start : Date) (hc : cities ≠ []) :
    (build_fallback_itinerary cities duration start).length = duration := by
  rw [build_fallback_itinerary, build_all_days_eq]
  simp [day_run_length, flatten_zip_length cities duration hc]

theorem list_get_congr {α : Type} {l l' : List α} (e : l = l') {j : Nat}
    (h : j < l.length) (h' : j < l'.length) :
    l.get ⟨j, h⟩ = l'.get ⟨j, h'⟩ := by
  cases e
  rfl

theorem day_run_get (cs : List String) :
    ∀ (base : Nat) (cur : Date) (j : Nat)
      (h : j < (day_run base cur cs).length) (hj : j < cs.length),
      (day_run base cur cs).get ⟨j, h⟩
        = mk_fallback_day (base + j + 1) (add_days cur j)
            (cs.get ⟨j, hj⟩) := by
  induction cs with
  | nil =>
    intro base cur j h hj
    simp at hj
  | cons c cs ih =>
    intro base cur j h hj
    cases j with
    | zero => rfl
    | succ j =>
      have h' : j < (day_run (base + 1) (next_date cur) cs).length := by
        have := h
        simp only [day_run, List.length_cons] at this
        omega
      show (day_run (base + 1) (next_date cur) cs).get ⟨j, h'⟩ = _
      rw [ih (base + 1) (next_date cur) j h' (Nat.lt_of_succ_lt_succ hj)]
      congr 1
      omega

theorem stamp_items_length (n : Nat) (l : List Item) :
    (stamp_items n l).length = l.length := by
  simp [stamp_items]

theorem stamp_items_get (n : Nat) (l : List Item) (i : Nat)
    (h : i < (stamp_items n l).length) (hi : i < l.length) :
    (stamp_items n l).get ⟨i, h⟩
      = { l.get ⟨i, hi⟩ with
          id := some (day_item_id n i),
          status := some "planned",
          delayed_to_day := some none,
          is_ai_suggested := some 1 } := by
  simp [stamp_items, List.get_map, List.get_enum]

theorem stamp_items_map_id (n : Nat) (l : List Item) :
    (stamp_items n l).map Item.id
      = (List.range l.length).map (fun i => some (day_item_id n i)) := by
  apply List.ext_get
  · simp [stamp_items_length]
  · intro i h1 h2
    have h1' : i < (stamp_items n l).length := by
      simpa using h1
    have hi : i < l.length := by
      rw [stamp_items_length] at h1'
      exact h1'
    rw [List.get_map, List.get_map, stamp_items_get n l i h1' hi,
      List.get_range]

theorem day_item_id_inj (n : Nat) {i j : Nat} (hi : i < 5) (hj : j < 5)
    (h : day_item_id n i = day_item_id n j) : i = j := by
  simp only [day_item_id] at h
  have h' : toString i = toString j := string_append_left_cancel h
  have hdec : ∀ a < 5, ∀ b < 5, toString (a : Nat) = toString b → a = b := by
    decide
  exact hdec i hi j hj h'

theorem stamp_ids_nodup (n : Nat) (l : List Item) (hl : l.length = 5) :
    ((stamp_items n l).map Item.id).Nodup := by
  rw [stamp_items_map_id, hl]
  apply List.Nodup.map_on
  · intro x hx y hy hxy
    simp only [Option.some.injEq] at hxy
    exact day_item_id_inj n (List.mem_range.mp hx) (List.mem_range.mp hy) hxy
  · exact List.nodup_range 5

theorem fallback_day_plan_length (city : String) :
    (fallback_day_plan city).length = 5 := rfl

/-- Every generated day is `mk_fallback_day (j+1) (start + j days)` of
some city. -/
theorem build_fallback_get (cities : List String) (duration : Nat)
    (start : Date) (j : Nat)
    (h : j < (build_fallback_itinerary cities duration start).length) :
    ∃ city : String,
      (build_fallback_itinerary cities duration start).get ⟨j, h⟩
        = mk_fallback_day (j + 1) (add_days start j) city := by
  have he : build_fallback_itinerary cities duration start
      = day_run 0 start
          (flatten_city_days (cities.zip (days_per_city cities duration))) := by
    rw [build_fallback_itinerary, build_all_days_eq]
    simp [day_run]
  have h2 : j < (day_run 0 start (flatten_city_days
      (cities.zip (days_per_city cities duration)))).length := by
    rw [← he]
    exact h
  have hj : j < (flatten_city_days
      (cities.zip (days_per_city cities duration))).length := by
    rw [day_run_length] at h2
    exact h2
  refine ⟨(flatten_city_days
    (cities.zip (days_per_city cities duration))).get ⟨j, hj⟩, ?_⟩
  rw [list_get_congr he h h2, day_run_get _ 0 start j h2 hj]
  congr 1
  omega

/-- C8: the fallback itinerary has exactly `duration` days numbered
contiguously from 1 with consecutive calendar dates from `startDate`;
each day carries the 5-activity template whose items have ids
`day{N}_item{i}` (pairwise distinct within the day), status "planned",
null delay target and the AI-suggested flag; in particular 2 cities and
5 days give days numbered 1..5. -/
theorem c8_fallback_itinerary (cities : List String) (duration : Nat)
    (start : Date) (hc : cities ≠ []) (hd : 1 ≤ duration) :
    (build_fallback_itinerary cities duration start).length = duration ∧
    (∀ (j : Nat)
        (h : j < (build_fallback_itinerary cities duration start).length),
      ((build_fallback_itinerary cities duration start).get
          ⟨j, h⟩).day_number = some (j + 1) ∧
      ((build_fallback_itinerary cities duration start).get ⟨j, h⟩).date
        = some (add_days start j) ∧
      ((build_fallback_itinerary cities duration start).get
          ⟨j, h⟩).items.length = 5 ∧
      (∀ (i : Nat)
          (hi : i < ((build_fallback_itinerary cities duration
            start).get ⟨j, h⟩).items.length),
        (((build_fallback_itinerary cities duration start).get
            ⟨j, h⟩).items.get ⟨i, hi⟩).id = some (day_item_id (j + 1) i) ∧
        (((build_fallback_itinerary cities duration start).get
            ⟨j, h⟩).items.get ⟨i, hi⟩).status = some "planned" ∧
        (((build_fallback_itinerary cities duration start).get
            ⟨j, h⟩).items.get ⟨i, hi⟩).delayed_to_day = some none ∧
        (((build_fallback_itinerary cities duration start).get
            ⟨j, h⟩).items.get ⟨i, hi⟩).is_ai_suggested = some 1) ∧
      (((build_fallback_itinerary cities duration start).get
          ⟨j, h⟩).items.map Item.id).Nodup) ∧
    (build_fallback_itinerary ["Tokyo", "Kyoto"] 5 start).map
        Day.day_number
      = [some 1, some 2, some 3, some 4, some 5] := by
  have hcore : ∀ (cs : List String) (du : Nat) (j : Nat)
      (h : j < (build_fallback_itinerary cs du start).length),
      ((build_fallback_itinerary cs du start).get ⟨j, h⟩).day_number
          = some (j + 1) ∧
      ((build_fallback_itinerary cs du start).get ⟨j, h⟩).date
        = some (add_days start j) ∧
      ((build_fallback_itinerary cs du start).get ⟨j, h⟩).items.length
          = 5 ∧
      (∀ (i : Nat)
          (hi : i < ((build_fallback_itinerary cs du start).get
            ⟨j, h⟩).items.length),
        (((build_fallback_itinerary cs du start).get ⟨j, h⟩).items.get
            ⟨i, hi⟩).id = some (day_item_id (j + 1) i) ∧
        (((build_fallback_itinerary cs du start).get ⟨j, h⟩).items.get
            ⟨i, hi⟩).status = some "planned" ∧
        (((build_fallback_itinerary cs du start).get ⟨j, h⟩).items.get
            ⟨i, hi⟩).delayed_to_day = some none ∧
        (((build_fallback_itinerary cs du start).get ⟨j, h⟩).items.get
            ⟨i, hi⟩).is_ai_suggested = some 1) ∧
      (((build_fallback_itinerary cs du start).get ⟨j, h⟩).items.map
          Item.id).Nodup := by
    intro cs du j h
    obtain ⟨city, hcity⟩ := build_fallback_get cs du start j h
    rw [hcity]
    refine ⟨rfl, rfl, ?_, ?_, ?_⟩
    · show (stamp_items (j + 1) (fallback_day_plan city)).length = 5
      rw [stamp_items_length, fallback_day_plan_length]
    · intro i hi
      have hi2 : i < (stamp_items (j + 1) (fallback_day_plan city)).length :=
        hi
      have hi' : i < (fallback_day_plan city).length := by
        rw [stamp_items_length] at hi2
        exact hi2
      have hg := stamp_items_get (j + 1) (fallback_day_plan city) i hi2 hi'
      show ((stamp_items (j + 1) (fallback_day_plan city)).get ⟨i, hi2⟩).id
          = some (day_item_id (j + 1) i) ∧
        ((stamp_items (j + 1) (fallback_day_plan city)).get
          ⟨i, hi2⟩).status = some "planned" ∧
        ((stamp_items (j + 1) (fallback_day_plan city)).get
          ⟨i, hi2⟩).delayed_to_day = some none ∧
        ((stamp_items (j + 1) (fallback_day_plan city)).get
          ⟨i, hi2⟩).is_ai_suggested = some 1
      rw [hg]
      exact ⟨rfl, rfl, rfl, rfl⟩
    · show ((stamp_items (j + 1) (fallback_day_plan city)).map
        Item.id).Nodup
      exact stamp_ids_nodup _ _ (fallback_day_plan_length city)
  refine ⟨build_fallback_length cities duration start hc,
    hcore cities duration, ?_⟩
  have hlen2 : (build_fallback_itinerary ["Tokyo", "Kyoto"] 5 start).length
      = 5 := build_fallback_length _ _ _ (by simp)
  apply List.ext_get
  · simp [hlen2]
  · intro i h1 h2
    have h1' : i
        < (build_fallback_itinerary ["Tokyo", "Kyoto"] 5 start).length := by
      simpa using h1
    rw [List.get_map]
    show ((build_fallback_itinerary ["Tokyo", "Kyoto"] 5 start).get
        ⟨i, h1'⟩).day_number = _
    rw [(hcore ["Tokyo", "Kyoto"] 5 i h1').1]
    have hi5 : i < 5 := by
      rw [hlen2] at h1'
      exact h1'
    interval_cases i <;> rfl

/-- Witness for C8 at a concrete input. -/
theorem c8_fallback_itinerary_witness :
    (build_fallback_itinerary ["Tokyo", "Kyoto"] 5 ⟨2026, 3, 1⟩).length
      = 5 :=
  (c8_fallback_itinerary ["Tokyo", "Kyoto"] 5 ⟨2026, 3, 1⟩ (by simp)
    (by omega)).1

/-- C9: on malformed (non-JSON / non-list / empty) itinerary output the
parser falls back to the fallback builder, whose length is exactly the
trip duration `_calc_duration(start, end) = (end - start).days + 1`
derived from the dates — never an empty itinerary. -/
theorem c9_malformed_output_fallback (dest : String)
    (cities : List String) (s e start : Date) (hc : cities ≠ [])
    (hse : to_ordinal s ≤ to_ordinal e) :
    parse_itinerary_result dest none cities (calc_duration s e).toNat start
        = build_fallback_itinerary cities (calc_duration s e).toNat
            start ∧
    parse_itinerary_result dest (some []) cities
        (calc_duration s e).toNat start
      = build_fallback_itinerary cities (calc_duration s e).toNat start ∧
    ((parse_itinerary_result dest none cities (calc_duration s e).toNat
        start).length : Int) = calc_duration s e ∧
    parse_itinerary_result dest none cities (calc_duration s e).toNat
        start ≠ [] := by
  have h1 : parse_itinerary_result dest none cities
      (calc_duration s e).toNat start
        = build_fallback_itinerary cities (calc_duration s e).toNat
            start := by
    simp [parse_itinerary_result]
  have hpos : 1 ≤ calc_duration s e := by
    have : (to_ordinal s : Int) ≤ (to_ordinal e : Int) := by
      exact_mod_cast hse
    simp only [calc_duration]
    omega
  have hlen : (parse_itinerary_result dest none cities
      (calc_duration s e).toNat start).length
        = (calc_duration s e).toNat := by
    rw [h1]
    exact build_fallback_length cities _ start hc
  refine ⟨h1, by simp [parse_itinerary_result], ?_, ?_⟩
  · rw [hlen]
    omega
  · intro hnil
    have := congrArg List.length hnil
    rw [hlen] at this
    simp at this
    omega

/-- Witness for C9 at concrete inputs. -/
theorem c9_malformed_output_fallback_witness :
    parse_itinerary_result "Japan" none ["Tokyo"]
        (calc_duration ⟨2026, 10, 1⟩ ⟨2026, 10, 5⟩).toNat ⟨2026, 10, 1⟩
      ≠ [] :=
  (c9_malformed_output_fallback "Japan" ["Tokyo"] ⟨2026, 10, 1⟩
    ⟨2026, 10, 5⟩ ⟨2026, 10, 1⟩ (by simp) (by decide)).2.2.2

/-- Witness for C5 at concrete inputs: with `avoid = ["Walking"]` the
recommendation is transit. -/
theorem c5_pick_resolution_witness :
    (pick_recommendation { duration_value := some 300 }
        { duration_value := some 600, transit_name := some "metro" }
        (some { avoid := ["Walking"] })).1 = "transit" :=
  (c5_pick_resolution { duration_value := some 300 }
      { duration_value := some 600, transit_name := some "metro" }
      (some { avoid := ["Walking"] })).1 (by decide) (by decide)
